import Mathlib

/-!
Verification development for the chart-generator backend.

The Python source is shallowly embedded in Lean:
- Python dict fields that the code distinguishes as absent / present-None /
  present-value are modelled with the three-valued `PyOpt`; plain `Option`
  is used where the code never distinguishes absent from None.
- Python strings are Lean `String`s; `str.strip` / `str.lower` /
  `str.capitalize` are modelled character-wise on ASCII (the repository
  only manipulates ASCII column names and operator tokens).
- Fallible Python code (raise/except) is modelled with `Except String`.
- pandas dataframes are modelled by `DF` below: an ordered list of named,
  dtype-tagged columns over exact rationals; NaN/None cells are `Cell.null`.
-/

namespace ChartGen

/-- The default whitespace set stripped by Python `str.strip()`,
restricted to ASCII. -/
def pyIsSpace (c : Char) : Bool :=
  c = ' ' || c = '\t' || c = '\n' || c = '\r' || c = '\x0b' || c = '\x0c'

/-- ASCII lower-casing of one character, as `str.lower` does on ASCII input. -/
def pyLowerChar : Char → Char
  | 'A' => 'a' | 'B' => 'b' | 'C' => 'c' | 'D' => 'd' | 'E' => 'e'
  | 'F' => 'f' | 'G' => 'g' | 'H' => 'h' | 'I' => 'i' | 'J' => 'j'
  | 'K' => 'k' | 'L' => 'l' | 'M' => 'm' | 'N' => 'n' | 'O' => 'o'
  | 'P' => 'p' | 'Q' => 'q' | 'R' => 'r' | 'S' => 's' | 'T' => 't'
  | 'U' => 'u' | 'V' => 'v' | 'W' => 'w' | 'X' => 'x' | 'Y' => 'y'
  | 'Z' => 'z'
  | c => c

/-- ASCII upper-casing of one character, as `str.upper`/`str.capitalize`
use on ASCII input. -/
def pyUpperChar : Char → Char
  | 'a' => 'A' | 'b' => 'B' | 'c' => 'C' | 'd' => 'D' | 'e' => 'E'
  | 'f' => 'F' | 'g' => 'G' | 'h' => 'H' | 'i' => 'I' | 'j' => 'J'
  | 'k' => 'K' | 'l' => 'L' | 'm' => 'M' | 'n' => 'N' | 'o' => 'O'
  | 'p' => 'P' | 'q' => 'Q' | 'r' => 'R' | 's' => 'S' | 't' => 'T'
  | 'u' => 'U' | 'v' => 'V' | 'w' => 'W' | 'x' => 'X' | 'y' => 'Y'
  | 'z' => 'Z'
  | c => c

/-- `str.lower()` on ASCII strings. -/
def pyLower (s : String) : String :=
  ⟨s.toList.map pyLowerChar⟩

/-- `str.strip()` on a character list: drop leading and trailing whitespace. -/
def pyStripList (l : List Char) : List Char :=
  (l.dropWhile pyIsSpace).rdropWhile pyIsSpace

/-- `str.strip()` on ASCII strings. -/
def pyStrip (s : String) : String :=
  ⟨pyStripList s.toList⟩

/-- `str.capitalize()`: first character upper-cased, the rest lower-cased. -/
def pyCapitalize (s : String) : String :=
  match s.toList with
  | [] => ""
  | c :: cs => ⟨pyUpperChar c :: cs.map pyLowerChar⟩

/-- A Python dict entry that the code may see as a missing key, a key
holding `None`, or a key holding a value.  (Python's `d.get(k)` returns
`None` both for `absent` and for `null`; `k in d` and `d.get(k, default)`
distinguish them, and the source relies on that distinction.) -/
inductive PyOpt (α : Type) where
  | absent
  | null
  | val (a : α)
deriving DecidableEq, Repr

/-- Python truthiness of an optional string field: only a present,
non-empty string is truthy. -/
def PyOpt.truthy : PyOpt String → Bool
  | .val s => s ≠ ""
  | _ => false

/-- The truthy string held by the field, if any. -/
def PyOpt.getStr : PyOpt String → Option String
  | .val s => if s = "" then none else some s
  | _ => none

/-- A scalar JSON value as it appears in a raw chart intent's filter
`value` slot (the source only ever passes these through or compares them). -/
inductive PyVal where
  | s (v : String)
  | i (v : Int)
  | b (v : Bool)
deriving DecidableEq, Repr

/-- One entry of the raw intent's `filters` list, with every alternative
key the source probes (`validate_and_enhance_spec` reads
`column`/`column_name`/`col`/`field`, `operator`/`op`/`relation`/
`operator_symbol`, and `value`/`val`/`v`).  String-valued slots are
modelled as `Option String` (`none` = absent or `None` or a non-string,
all falsy in the `or`-chains the code uses); the three value slots keep
the absent-vs-present distinction because the code tests key membership
(`'value' in f`). -/
structure FilterDict where
  column : Option String := none
  column_name : Option String := none
  col : Option String := none
  field : Option String := none
  operator : Option String := none
  op : Option String := none
  relation : Option String := none
  operator_symbol : Option String := none
  value : Option (Option PyVal) := none
  val : Option (Option PyVal) := none
  v : Option (Option PyVal) := none
deriving DecidableEq, Repr

/-- First truthy entry of a Python `a or b or c or d` chain over optional
strings (empty strings are falsy). -/
def firstTruthy (l : List (Option String)) : Option String :=
  match l with
  | [] => none
  | o :: rest =>
    match o with
    | some s => if s = "" then firstTruthy rest else some s
    | none => firstTruthy rest

/-- The dataset metadata fields consumed by `validate_and_enhance_spec`
(the remaining fields of `analyze_data_structure`'s dict are never read by
the modelled code paths). -/
structure Metadata where
  columns : List String
  numerical_columns : List String
deriving DecidableEq, Repr

/-- The operator synonym table of `validate_and_enhance_spec`. -/
def opMap : List (String × String) :=
  [("=", "=="), ("==", "=="), ("equals", "=="), ("is", "=="),
   ("!=", "!="), ("neq", "!="), ("not equals", "!="),
   (">", ">"), ("<", "<"), (">=", ">="), ("<=", "<=")]

/-- `dict.get(key)` over the association list representing `op_map`. -/
def assocLookup (key : String) : List (String × String) → Option String
  | [] => none
  | (k, w) :: rest => if key = k then some w else assocLookup key rest

/-- `op_map.get(op_clean, op_clean)` after `op.strip().lower()`. -/
def opNormalize (o : String) : String :=
  let oc := pyLower (pyStrip o)
  (assocLookup oc opMap).getD oc

/-- Column resolution: exact name match first, then the first
case-insensitively matching metadata column. -/
def resolveColumn (cols : List String) (c : String) : Option String :=
  if c ∈ cols then some c
  else (cols.filter (fun x => pyLower x = pyLower c)).head?

/-- The normalized filter dict `{'column': c, 'operator': o, 'value': v}`
that the source appends to `normalized_filters`. -/
def mkNormFilter (c o : String) (pv : PyVal) : FilterDict :=
  { column := some c, operator := some o, value := some (some pv) }

/-- The `value`/`val`/`v` key probe: the first *present* key wins, and a
present `None` blocks the later keys. -/
def filterValueOf (f : FilterDict) : Option PyVal :=
  match f.value with
  | some x => x
  | none =>
    match f.val with
    | some x => x
    | none =>
      match f.v with
      | some x => x
      | none => none

/-- Normalization of one raw filter clause; `none` means the clause is
silently dropped. -/
def normFilterOne (cols : List String) (f : FilterDict) : Option FilterDict :=
  let c? := firstTruthy [f.column, f.column_name, f.col, f.field]
  let o? := firstTruthy [f.operator, f.op, f.relation, f.operator_symbol]
  match c?, o?, filterValueOf f with
  | some c, some o, some pv =>
    let onorm := opNormalize o
    if onorm = "" then none
    else
      match resolveColumn cols c with
      | some c2 => some (mkNormFilter c2 onorm pv)
      | none => none
  | _, _, _ => none

/-- The filter-normalization loop of `validate_and_enhance_spec`. -/
def normalizeFilters (cols : List String) (fs : List FilterDict) :
    List FilterDict :=
  fs.filterMap (normFilterOne cols)

/-- The chart-spec dict as `validate_and_enhance_spec` and
`generate_chart` read it.  The `filters` slot is `none` when the key is
absent, `None`, or not a list (all left untouched by the code);
`customization` is never touched by normalization and only feeds the
purely visual `_apply_customizations`, so it is omitted from the model. -/
structure SpecDict where
  chart_type : PyOpt String := .absent
  x_axis : PyOpt String := .absent
  y_axis : PyOpt String := .absent
  color_by : PyOpt String := .absent
  aggregation : PyOpt String := .absent
  filters : Option (List FilterDict) := none
  title : PyOpt String := .absent
  x_label : PyOpt String := .absent
  y_label : PyOpt String := .absent
deriving DecidableEq, Repr

/-- The guard `spec.get('x_axis') and spec['x_axis'] not in all_columns`. -/
def xAxisBad (cols : List String) : PyOpt String → Bool
  | .val s => decide (s ≠ "" ∧ s ∉ cols)
  | _ => false

/-- `if spec.get(k) and spec[k] not in all_columns: spec[k] = None`. -/
def clearIfMissing (cols : List String) : PyOpt String → PyOpt String
  | .val s => if s ≠ "" ∧ s ∉ cols then .null else .val s
  | p => p

/-- `spec.get('y_axis') in metadata.get('numerical_columns', [])`. -/
def yIsNumeric (md : Metadata) : PyOpt String → Bool
  | .val s => md.numerical_columns.contains s
  | _ => false

/-- `spec.get('x_axis')` as written into `x_label`: an absent or null
`x_axis` writes `None`. -/
def defaultXLabel : PyOpt String → PyOpt String
  | .val t => .val t
  | _ => .null

/-- `spec.get('y_axis', 'Value')` as written into `y_label`: the literal
`"Value"` appears only when the `y_axis` key is entirely absent; a
present-but-`None` `y_axis` (e.g. one just cleared by validation) writes
`None`. -/
def defaultYLabel : PyOpt String → PyOpt String
  | .val t => .val t
  | .null => .null
  | .absent => .val "Value"

/-- `if not spec.get('x_label'): spec['x_label'] = spec.get('x_axis')`. -/
def fillXLabel (s : SpecDict) : SpecDict :=
  if s.x_label.truthy then s else { s with x_label := defaultXLabel s.x_axis }

/-- `if not spec.get('y_label'): spec['y_label'] = spec.get('y_axis', 'Value')`. -/
def fillYLabel (s : SpecDict) : SpecDict :=
  if s.y_label.truthy then s else { s with y_label := defaultYLabel s.y_axis }

/-- The label-defaulting tail of `validate_and_enhance_spec`. -/
def fillLabels (s : SpecDict) : SpecDict :=
  fillYLabel (fillXLabel s)

/-- The filter-normalization prefix of `validate_and_enhance_spec`:
`spec['filters']` is rebuilt when the raw value is a list, otherwise the
spec is left untouched. -/
def normSpecFilters (cols : List String) (spec : SpecDict) : SpecDict :=
  match spec.filters with
  | some fs => { spec with filters := some (normalizeFilters cols fs) }
  | none => spec

/-- The two clearing statements for `y_axis` and `color_by`. -/
def applyClears (cols : List String) (s : SpecDict) : SpecDict :=
  { s with y_axis := clearIfMissing cols s.y_axis,
           color_by := clearIfMissing cols s.color_by }

/-- `if not spec.get('aggregation'): ...` default filling. -/
def applyAggDefault (md : Metadata) (s : SpecDict) : SpecDict :=
  if s.aggregation.truthy then s
  else { s with aggregation :=
           PyOpt.val (if yIsNumeric md s.y_axis then "mean" else "count") }

/-- `if not spec.get('title'): spec['title'] =
f"{spec.get('chart_type', 'Chart').capitalize()} Chart"`.  When
`chart_type` is present but `None`, `.capitalize()` raises
`AttributeError`, which the surrounding `except` turns into the
validation `ValueError`. -/
def applyTitleDefault (s : SpecDict) : Except String SpecDict :=
  if s.title.truthy then .ok s
  else
    match s.chart_type with
    | .null =>
      .error "Chart specification validation failed: NoneType has no capitalize"
    | .absent =>
      .ok { s with title := .val (pyCapitalize "Chart" ++ " Chart") }
    | .val ct =>
      .ok { s with title := .val (pyCapitalize ct ++ " Chart") }

/-- Embedding of `LLMHandler.validate_and_enhance_spec`.  The whole body
runs inside `try/except`, re-raising every failure as
`ValueError("Chart specification validation failed: ...")`; the two
reachable failure points are the explicit `x_axis` raise and the
`AttributeError` from defaulting the title when `chart_type` is present
but `None`. -/
def validate_and_enhance_spec (spec : SpecDict) (md : Metadata) :
    Except String SpecDict :=
  let s1 : SpecDict := normSpecFilters md.columns spec
  if xAxisBad md.columns s1.x_axis then
    .error "Chart specification validation failed: column not found in data"
  else
    match applyTitleDefault (applyAggDefault md (applyClears md.columns s1)) with
    | .error e => .error e
    | .ok s4 => .ok (fillLabels s4)

/-! ### Basic lemmas about the Python string helpers -/

theorem pyLowerChar_cases (c : Char) :
    pyLowerChar c = c ∨ pyLowerChar c ∈
      ['a', 'b', 'c', 'd', 'e', 'f', 'g', 'h', 'i', 'j', 'k', 'l', 'm',
       'n', 'o', 'p', 'q', 'r', 's', 't', 'u', 'v', 'w', 'x', 'y', 'z'] := by
  unfold pyLowerChar
  split <;> first
    | (left; rfl)
    | (right; decide)

theorem pyLowerChar_idem (c : Char) : pyLowerChar (pyLowerChar c) = pyLowerChar c := by
  rcases pyLowerChar_cases c with h | h
  · rw [h, h]
  · have hfix : ∀ x ∈ ['a', 'b', 'c', 'd', 'e', 'f', 'g', 'h', 'i', 'j', 'k',
        'l', 'm', 'n', 'o', 'p', 'q', 'r', 's', 't', 'u', 'v', 'w', 'x', 'y',
        'z'], pyLowerChar x = x := by decide
    rw [hfix _ h]

theorem pyIsSpace_pyLowerChar (c : Char) :
    pyIsSpace (pyLowerChar c) = pyIsSpace c := by
  unfold pyLowerChar
  split <;> rfl

theorem map_pyLowerChar_idem (l : List Char) :
    (l.map pyLowerChar).map pyLowerChar = l.map pyLowerChar := by
  induction l with
  | nil => rfl
  | cons c cs ih => simp [pyLowerChar_idem, ih]

theorem pyLower_pyLower (s : String) : pyLower (pyLower s) = pyLower s := by
  unfold pyLower
  exact congrArg String.mk (map_pyLowerChar_idem s.toList)

theorem pyLower_eq_empty_iff (s : String) : pyLower s = "" ↔ s = "" := by
  cases s with
  | mk l =>
    cases l with
    | nil => simp [pyLower]
    | cons c cs =>
      constructor
      · intro h
        exact absurd (congrArg String.data h) (by simp [pyLower])
      · intro h
        exact absurd (congrArg String.data h) (by simp)

theorem stripList_dropWhile (l : List Char) :
    (pyStripList l).dropWhile pyIsSpace = pyStripList l := by
  unfold pyStripList
  cases hB : (l.dropWhile pyIsSpace).rdropWhile pyIsSpace with
  | nil => rfl
  | cons b bs =>
    obtain ⟨t, ht⟩ := List.rdropWhile_prefix pyIsSpace (l.dropWhile pyIsSpace)
    rw [hB] at ht
    have hh : (l.dropWhile pyIsSpace).head? = some b := by
      rw [← ht]; simp
    have h2 := List.head?_dropWhile_not pyIsSpace l
    rw [hh] at h2
    simp only at h2
    simp [List.dropWhile_cons, h2]

theorem stripList_idem (l : List Char) :
    pyStripList (pyStripList l) = pyStripList l := by
  have h1 := stripList_dropWhile l
  unfold pyStripList at h1 ⊢
  rw [h1]
  exact List.rdropWhile_idempotent pyIsSpace _

theorem stripList_map_lower (l : List Char) :
    pyStripList (l.map pyLowerChar) = (pyStripList l).map pyLowerChar := by
  have hcomp : (pyIsSpace ∘ pyLowerChar) = pyIsSpace := funext pyIsSpace_pyLowerChar
  unfold pyStripList List.rdropWhile
  rw [List.dropWhile_map, hcomp, ← List.map_reverse, List.dropWhile_map, hcomp,
    ← List.map_reverse]

theorem pyStrip_pyLower_pyStrip (s : String) :
    pyStrip (pyLower (pyStrip s)) = pyLower (pyStrip s) := by
  show String.mk (pyStripList ((pyStripList s.toList).map pyLowerChar)) =
    String.mk ((pyStripList s.toList).map pyLowerChar)
  rw [stripList_map_lower, stripList_idem]

theorem pyLower_pyStrip_fix (s : String) :
    pyLower (pyStrip (pyLower (pyStrip s))) = pyLower (pyStrip s) := by
  rw [pyStrip_pyLower_pyStrip, pyLower_pyLower]

theorem assocLookup_mem {l : List (String × String)} {k w : String}
    (h : assocLookup k l = some w) : (k, w) ∈ l := by
  induction l with
  | nil => simp [assocLookup] at h
  | cons p rest ih =>
    obtain ⟨a, b⟩ := p
    by_cases hk : k = a
    · subst hk
      simp [assocLookup] at h
      simp [h]
    · simp only [assocLookup, if_neg hk] at h
      exact List.mem_cons_of_mem _ (ih h)

theorem opNormalize_idem (o : String) :
    opNormalize (opNormalize o) = opNormalize o := by
  cases hl : assocLookup (pyLower (pyStrip o)) opMap with
  | none =>
    have h1 : opNormalize o = pyLower (pyStrip o) := by
      simp [opNormalize, hl]
    rw [h1]
    simp [opNormalize, pyLower_pyStrip_fix, hl]
  | some w =>
    have h1 : opNormalize o = w := by simp [opNormalize, hl]
    have hall : ∀ p ∈ opMap, opNormalize p.2 = p.2 := by decide
    rw [h1]
    exact hall _ (assocLookup_mem hl)

/-! ### Lemmas about filter-clause normalization -/

theorem firstTruthy_ne_empty {l : List (Option String)} {s : String}
    (h : firstTruthy l = some s) : s ≠ "" := by
  induction l with
  | nil => simp [firstTruthy] at h
  | cons o rest ih =>
    cases o with
    | none => exact ih (by simpa [firstTruthy] using h)
    | some t =>
      by_cases ht : t = ""
      · subst ht
        exact ih (by simpa [firstTruthy] using h)
      · simp [firstTruthy, ht] at h
        subst h
        exact ht

theorem firstTruthy_single (s : String) (h : s ≠ "") :
    firstTruthy [some s, none, none, none] = some s := by
  simp [firstTruthy, h]

theorem resolveColumn_mem {cols : List String} {c c2 : String}
    (h : resolveColumn cols c = some c2) :
    c2 ∈ cols ∧ (c2 = c ∨ pyLower c2 = pyLower c) := by
  unfold resolveColumn at h
  by_cases hc : c ∈ cols
  · rw [if_pos hc] at h
    cases h
    exact ⟨hc, Or.inl rfl⟩
  · rw [if_neg hc] at h
    have hmem := List.mem_of_mem_head? h
    have := List.mem_filter.mp hmem
    refine ⟨this.1, Or.inr ?_⟩
    simpa using this.2

theorem resolveColumn_ne_empty {cols : List String} {c c2 : String}
    (hc : c ≠ "") (h : resolveColumn cols c = some c2) : c2 ≠ "" := by
  rcases (resolveColumn_mem h).2 with rfl | hlow
  · exact hc
  · intro h2
    subst h2
    have : pyLower c = "" := by rw [← hlow]; rfl
    exact hc ((pyLower_eq_empty_iff c).mp this)

theorem resolveColumn_of_mem {cols : List String} {c : String} (h : c ∈ cols) :
    resolveColumn cols c = some c := by
  simp [resolveColumn, h]

theorem normFilterOne_fix {cols : List String} {f g : FilterDict}
    (h : normFilterOne cols f = some g) : normFilterOne cols g = some g := by
  unfold normFilterOne at h
  cases hc : firstTruthy [f.column, f.column_name, f.col, f.field] with
  | none => rw [hc] at h; simp at h
  | some c =>
  cases ho : firstTruthy [f.operator, f.op, f.relation, f.operator_symbol] with
  | none => rw [hc, ho] at h; simp at h
  | some o =>
  cases hv : filterValueOf f with
  | none => rw [hc, ho, hv] at h; simp at h
  | some pv =>
  rw [hc, ho, hv] at h
  simp only at h
  by_cases hon : opNormalize o = ""
  · rw [if_pos hon] at h; simp at h
  · rw [if_neg hon] at h
    cases hr : resolveColumn cols c with
    | none => rw [hr] at h; simp at h
    | some c2 =>
      rw [hr] at h
      simp only [Option.some_inj] at h
      subst h
      have hc2ne : c2 ≠ "" := resolveColumn_ne_empty (firstTruthy_ne_empty hc) hr
      have hone2 : opNormalize (opNormalize o) ≠ "" := by
        rw [opNormalize_idem]; exact hon
      unfold normFilterOne
      dsimp only [mkNormFilter, filterValueOf]
      rw [firstTruthy_single _ hc2ne, firstTruthy_single _ hon]
      dsimp only
      rw [opNormalize_idem, if_neg hon,
        resolveColumn_of_mem (resolveColumn_mem hr).1]

theorem filterMap_of_forall_some {α : Type} {f : α → Option α} :
    ∀ {l : List α}, (∀ a ∈ l, f a = some a) → l.filterMap f = l := by
  intro l
  induction l with
  | nil => intro _; rfl
  | cons a rest ih =>
    intro h
    rw [List.filterMap_cons, h a (by simp)]
    rw [ih (fun b hb => h b (by simp [hb]))]

theorem normalizeFilters_idem (cols : List String) (fs : List FilterDict) :
    normalizeFilters cols (normalizeFilters cols fs) = normalizeFilters cols fs := by
  apply filterMap_of_forall_some
  intro g hg
  obtain ⟨f, _, hsome⟩ := List.mem_filterMap.mp hg
  exact normFilterOne_fix hsome

/-! ### Structural lemmas about the normalization pipeline -/

theorem append_chart_ne_empty (s : String) : s ++ " Chart" ≠ "" := by
  intro h
  have h2 : (s ++ " Chart").data = ("" : String).data := congrArg String.data h
  cases s with
  | mk l =>
    cases l with
    | nil => exact absurd h2 (by simp [String.data_append])
    | cons c cs => exact absurd h2 (by simp [String.data_append])

theorem fillXLabel_proj (s : SpecDict) :
    (fillXLabel s).chart_type = s.chart_type ∧ (fillXLabel s).x_axis = s.x_axis ∧
    (fillXLabel s).y_axis = s.y_axis ∧ (fillXLabel s).color_by = s.color_by ∧
    (fillXLabel s).aggregation = s.aggregation ∧
    (fillXLabel s).filters = s.filters ∧ (fillXLabel s).title = s.title ∧
    (fillXLabel s).y_label = s.y_label := by
  unfold fillXLabel; split <;> exact ⟨rfl, rfl, rfl, rfl, rfl, rfl, rfl, rfl⟩

theorem fillYLabel_proj (s : SpecDict) :
    (fillYLabel s).chart_type = s.chart_type ∧ (fillYLabel s).x_axis = s.x_axis ∧
    (fillYLabel s).y_axis = s.y_axis ∧ (fillYLabel s).color_by = s.color_by ∧
    (fillYLabel s).aggregation = s.aggregation ∧
    (fillYLabel s).filters = s.filters ∧ (fillYLabel s).title = s.title ∧
    (fillYLabel s).x_label = s.x_label := by
  unfold fillYLabel; split <;> exact ⟨rfl, rfl, rfl, rfl, rfl, rfl, rfl, rfl⟩

theorem fillLabels_x_label (s : SpecDict) :
    (fillLabels s).x_label =
      (if s.x_label.truthy then s.x_label else defaultXLabel s.x_axis) := by
  unfold fillLabels
  rw [(fillYLabel_proj (fillXLabel s)).2.2.2.2.2.2.2]
  unfold fillXLabel
  split <;> rfl

theorem fillLabels_y_label (s : SpecDict) :
    (fillLabels s).y_label =
      (if s.y_label.truthy then s.y_label else defaultYLabel s.y_axis) := by
  unfold fillLabels fillYLabel
  rw [(fillXLabel_proj s).2.2.2.2.2.2.2, (fillXLabel_proj s).2.2.1]
  split
  · exact (fillXLabel_proj s).2.2.2.2.2.2.2
  · rfl

theorem fillLabels_proj (s : SpecDict) :
    (fillLabels s).chart_type = s.chart_type ∧ (fillLabels s).x_axis = s.x_axis ∧
    (fillLabels s).y_axis = s.y_axis ∧ (fillLabels s).color_by = s.color_by ∧
    (fillLabels s).aggregation = s.aggregation ∧
    (fillLabels s).filters = s.filters ∧ (fillLabels s).title = s.title := by
  unfold fillLabels
  have hY := fillYLabel_proj (fillXLabel s)
  have hX := fillXLabel_proj s
  exact ⟨hY.1.trans hX.1, hY.2.1.trans hX.2.1, hY.2.2.1.trans hX.2.2.1,
    hY.2.2.2.1.trans hX.2.2.2.1, hY.2.2.2.2.1.trans hX.2.2.2.2.1,
    hY.2.2.2.2.2.1.trans hX.2.2.2.2.2.1, hY.2.2.2.2.2.2.1.trans hX.2.2.2.2.2.2.1⟩

theorem clearIfMissing_idem (cols : List String) (p : PyOpt String) :
    clearIfMissing cols (clearIfMissing cols p) = clearIfMissing cols p := by
  cases p with
  | absent => rfl
  | null => rfl
  | val s =>
    by_cases h : s ≠ "" ∧ s ∉ cols
    · simp [clearIfMissing, h]
    · simp [clearIfMissing, h]

theorem normSpecFilters_proj (cols : List String) (s : SpecDict) :
    (normSpecFilters cols s).chart_type = s.chart_type ∧
    (normSpecFilters cols s).x_axis = s.x_axis ∧
    (normSpecFilters cols s).y_axis = s.y_axis ∧
    (normSpecFilters cols s).color_by = s.color_by ∧
    (normSpecFilters cols s).aggregation = s.aggregation ∧
    (normSpecFilters cols s).title = s.title ∧
    (normSpecFilters cols s).x_label = s.x_label ∧
    (normSpecFilters cols s).y_label = s.y_label ∧
    (normSpecFilters cols s).filters = s.filters.map (normalizeFilters cols) := by
  cases hf : s.filters with
  | none => simp [normSpecFilters, hf]
  | some fs => simp [normSpecFilters, hf]

theorem applyClears_proj (cols : List String) (s : SpecDict) :
    (applyClears cols s).chart_type = s.chart_type ∧
    (applyClears cols s).x_axis = s.x_axis ∧
    (applyClears cols s).y_axis = clearIfMissing cols s.y_axis ∧
    (applyClears cols s).color_by = clearIfMissing cols s.color_by ∧
    (applyClears cols s).aggregation = s.aggregation ∧
    (applyClears cols s).title = s.title ∧
    (applyClears cols s).x_label = s.x_label ∧
    (applyClears cols s).y_label = s.y_label ∧
    (applyClears cols s).filters = s.filters :=
  ⟨rfl, rfl, rfl, rfl, rfl, rfl, rfl, rfl, rfl⟩

theorem applyAggDefault_proj (md : Metadata) (s : SpecDict) :
    (applyAggDefault md s).chart_type = s.chart_type ∧
    (applyAggDefault md s).x_axis = s.x_axis ∧
    (applyAggDefault md s).y_axis = s.y_axis ∧
    (applyAggDefault md s).color_by = s.color_by ∧
    (applyAggDefault md s).aggregation =
      (if s.aggregation.truthy then s.aggregation
       else .val (if yIsNumeric md s.y_axis then "mean" else "count")) ∧
    (applyAggDefault md s).title = s.title ∧
    (applyAggDefault md s).x_label = s.x_label ∧
    (applyAggDefault md s).y_label = s.y_label ∧
    (applyAggDefault md s).filters = s.filters := by
  unfold applyAggDefault
  split <;> simp_all

theorem applyTitleDefault_ok {s s4 : SpecDict}
    (h : applyTitleDefault s = .ok s4) :
    (s.title.truthy = false → s.chart_type ≠ .null) ∧
    s4.chart_type = s.chart_type ∧
    s4.x_axis = s.x_axis ∧
    s4.y_axis = s.y_axis ∧
    s4.color_by = s.color_by ∧
    s4.aggregation = s.aggregation ∧
    s4.title = (if s.title.truthy then s.title
      else .val (pyCapitalize (match s.chart_type with
                               | .val ct => ct
                               | _ => "Chart") ++ " Chart")) ∧
    s4.x_label = s.x_label ∧
    s4.y_label = s.y_label ∧
    s4.filters = s.filters := by
  unfold applyTitleDefault at h
  by_cases ht : s.title.truthy
  · rw [if_pos ht] at h
    cases h
    simp [ht]
  · rw [if_neg ht] at h
    cases hct : s.chart_type with
    | null => rw [hct] at h; exact absurd h (by simp)
    | absent =>
      rw [hct] at h
      cases h
      refine ⟨?_, rfl, rfl, rfl, rfl, rfl, ?_, rfl, rfl, rfl⟩
      · intro _
        simp
      · rw [if_neg ht]
    | val ct =>
      rw [hct] at h
      cases h
      refine ⟨?_, rfl, rfl, rfl, rfl, rfl, ?_, rfl, rfl, rfl⟩
      · intro _
        simp
      · rw [if_neg ht]

/-- Full characterization of a successful run of
`validate_and_enhance_spec`: the `x_axis` guard did not fire, and every
field of the returned spec is determined by the input spec and metadata. -/
theorem validate_ok_proj {spec : SpecDict} {md : Metadata} {r : SpecDict}
    (h : validate_and_enhance_spec spec md = .ok r) :
    xAxisBad md.columns spec.x_axis = false ∧
    (spec.title.truthy = false → spec.chart_type ≠ .null) ∧
    r.chart_type = spec.chart_type ∧
    r.x_axis = spec.x_axis ∧
    r.y_axis = clearIfMissing md.columns spec.y_axis ∧
    r.color_by = clearIfMissing md.columns spec.color_by ∧
    r.aggregation = (if spec.aggregation.truthy then spec.aggregation
      else .val (if yIsNumeric md (clearIfMissing md.columns spec.y_axis)
                 then "mean" else "count")) ∧
    r.filters = spec.filters.map (normalizeFilters md.columns) ∧
    r.title = (if spec.title.truthy then spec.title
      else .val (pyCapitalize (match spec.chart_type with
                               | .val ct => ct
                               | _ => "Chart") ++ " Chart")) ∧
    r.x_label = (if spec.x_label.truthy then spec.x_label
                 else defaultXLabel spec.x_axis) ∧
    r.y_label = (if spec.y_label.truthy then spec.y_label
                 else defaultYLabel (clearIfMissing md.columns spec.y_axis)) := by
  unfold validate_and_enhance_spec at h
  simp only [] at h
  have hN := normSpecFilters_proj md.columns spec
  rw [hN.2.1] at h
  by_cases hbad : xAxisBad md.columns spec.x_axis = true
  · rw [if_pos hbad] at h
    exact absurd h (by simp)
  · have hbadf : xAxisBad md.columns spec.x_axis = false :=
      Bool.eq_false_iff.mpr hbad
    rw [if_neg hbad] at h
    set sC := applyClears md.columns (normSpecFilters md.columns spec) with hsC
    set sA := applyAggDefault md sC with hsA
    cases ht : applyTitleDefault sA with
    | error e => rw [ht] at h; exact absurd h (by simp)
    | ok s4 =>
      rw [ht] at h
      have hr : r = fillLabels s4 := by
        cases h
        rfl
      have hT := applyTitleDefault_ok ht
      have hA := applyAggDefault_proj md sC
      have hC := applyClears_proj md.columns (normSpecFilters md.columns spec)
      have hF := fillLabels_proj s4
      -- chain the projections down to the original spec
      have e_ct : sA.chart_type = spec.chart_type := by
        rw [hsA, hA.1, hsC, hC.1, hN.1]
      have e_x : sA.x_axis = spec.x_axis := by
        rw [hsA, hA.2.1, hsC, hC.2.1, hN.2.1]
      have e_y : sA.y_axis = clearIfMissing md.columns spec.y_axis := by
        rw [hsA, hA.2.2.1, hsC, hC.2.2.1, hN.2.2.1]
      have e_c : sA.color_by = clearIfMissing md.columns spec.color_by := by
        rw [hsA, hA.2.2.2.1, hsC, hC.2.2.2.1, hN.2.2.2.1]
      have e_agg : sA.aggregation =
          (if spec.aggregation.truthy then spec.aggregation
           else .val (if yIsNumeric md (clearIfMissing md.columns spec.y_axis)
                      then "mean" else "count")) := by
        rw [hsA, hA.2.2.2.2.1, hsC, hC.2.2.2.2.1, hN.2.2.2.2.1,
          hC.2.2.1, hN.2.2.1]
      have e_t : sA.title = spec.title := by
        rw [hsA, hA.2.2.2.2.2.1, hsC, hC.2.2.2.2.2.1, hN.2.2.2.2.2.1]
      have e_xl : sA.x_label = spec.x_label := by
        rw [hsA, hA.2.2.2.2.2.2.1, hsC, hC.2.2.2.2.2.2.1, hN.2.2.2.2.2.2.1]
      have e_yl : sA.y_label = spec.y_label := by
        rw [hsA, hA.2.2.2.2.2.2.2.1, hsC, hC.2.2.2.2.2.2.2.1, hN.2.2.2.2.2.2.2.1]
      have e_f : sA.filters = spec.filters.map (normalizeFilters md.columns) := by
        rw [hsA, hA.2.2.2.2.2.2.2.2, hsC, hC.2.2.2.2.2.2.2.2, hN.2.2.2.2.2.2.2.2]
      refine ⟨hbadf, ?_, ?_, ?_, ?_, ?_, ?_, ?_, ?_, ?_, ?_⟩
      · rw [← e_t, ← e_ct]
        exact hT.1
      · rw [hr, hF.1, hT.2.1, e_ct]
      · rw [hr, hF.2.1, hT.2.2.1, e_x]
      · rw [hr, hF.2.2.1, hT.2.2.2.1, e_y]
      · rw [hr, hF.2.2.2.1, hT.2.2.2.2.1, e_c]
      · rw [hr, hF.2.2.2.2.1, hT.2.2.2.2.2.1, e_agg]
      · rw [hr, hF.2.2.2.2.2.1, hT.2.2.2.2.2.2.2.2.2, e_f]
      · rw [hr, hF.2.2.2.2.2.2, hT.2.2.2.2.2.2.1, e_t, e_ct]
      · rw [hr, fillLabels_x_label s4, hT.2.2.2.2.2.2.2.1, hT.2.2.1, e_xl, e_x]
      · rw [hr, fillLabels_y_label s4, hT.2.2.2.2.2.2.2.2.1, hT.2.2.2.1, e_yl, e_y]

theorem applyTitleDefault_isOk (s : SpecDict) :
    (applyTitleDefault s).isOk = false ↔
      (s.title.truthy = false ∧ s.chart_type = .null) := by
  unfold applyTitleDefault
  by_cases ht : s.title.truthy
  · simp [ht, Except.isOk, Except.toBool]
  · have htf : s.title.truthy = false := Bool.eq_false_iff.mpr ht
    rw [if_neg ht]
    cases hct : s.chart_type with
    | null => simp [htf, Except.isOk, Except.toBool]
    | absent => simp [htf, Except.isOk, Except.toBool]
    | val ct => simp [htf, Except.isOk, Except.toBool]

/-- Failure characterization of `validate_and_enhance_spec`: it fails
exactly when the truthy-and-unknown `x_axis` guard fires, or when the
title default is computed (title falsy) while `chart_type` is `None`. -/
theorem validate_isOk_iff (spec : SpecDict) (md : Metadata) :
    (validate_and_enhance_spec spec md).isOk = false ↔
      (xAxisBad md.columns spec.x_axis = true ∨
        (spec.title.truthy = false ∧ spec.chart_type = PyOpt.null)) := by
  unfold validate_and_enhance_spec
  simp only []
  have hN := normSpecFilters_proj md.columns spec
  rw [hN.2.1]
  by_cases hbad : xAxisBad md.columns spec.x_axis = true
  · simp [hbad, Except.isOk, Except.toBool]
  · rw [if_neg hbad]
    set sA := applyAggDefault md
      (applyClears md.columns (normSpecFilters md.columns spec)) with hsA
    have hA := applyAggDefault_proj md
      (applyClears md.columns (normSpecFilters md.columns spec))
    have hC := applyClears_proj md.columns (normSpecFilters md.columns spec)
    have e_t : sA.title = spec.title := by
      rw [hsA, hA.2.2.2.2.2.1, hC.2.2.2.2.2.1, hN.2.2.2.2.2.1]
    have e_ct : sA.chart_type = spec.chart_type := by
      rw [hsA, hA.1, hC.1, hN.1]
    cases hT : applyTitleDefault sA with
    | error e =>
      have h1 : (applyTitleDefault sA).isOk = false := by rw [hT]; rfl
      have h2 := (applyTitleDefault_isOk sA).mp h1
      rw [e_t, e_ct] at h2
      simp [h2, Except.isOk, Except.toBool]
    | ok s4 =>
      have h1 : (applyTitleDefault sA).isOk = true := by rw [hT]; rfl
      constructor
      · intro hfalse
        cases hfalse
      · intro hr
        rcases hr with hr | hr
        · exact absurd hr hbad
        · have := (applyTitleDefault_isOk sA).mpr (by rw [e_t, e_ct]; exact hr)
          rw [h1] at this
          cases this

theorem specDict_ext {a b : SpecDict}
    (h1 : a.chart_type = b.chart_type) (h2 : a.x_axis = b.x_axis)
    (h3 : a.y_axis = b.y_axis) (h4 : a.color_by = b.color_by)
    (h5 : a.aggregation = b.aggregation) (h6 : a.filters = b.filters)
    (h7 : a.title = b.title) (h8 : a.x_label = b.x_label)
    (h9 : a.y_label = b.y_label) : a = b := by
  cases a
  cases b
  simp only [] at h1 h2 h3 h4 h5 h6 h7 h8 h9
  rw [h1, h2, h3, h4, h5, h6, h7, h8, h9]

theorem truthy_val_of_ne {s : String} (h : s ≠ "") :
    PyOpt.truthy (.val s) = true := by
  simp [PyOpt.truthy, h]

theorem xAxisBad_true_iff (cols : List String) (p : PyOpt String) :
    xAxisBad cols p = true ↔ ∃ s, p = .val s ∧ s ≠ "" ∧ s ∉ cols := by
  cases p with
  | absent => simp [xAxisBad]
  | null => simp [xAxisBad]
  | val s => simp [xAxisBad]

theorem xAxisBad_false_iff (cols : List String) (p : PyOpt String) :
    xAxisBad cols p = false ↔
      (∀ s, p = .val s → s ≠ "" → s ∈ cols) := by
  cases p with
  | absent => simp [xAxisBad]
  | null => simp [xAxisBad]
  | val s =>
    simp only [xAxisBad, decide_eq_false_iff_not, not_and, not_not]
    constructor
    · intro h t ht hne
      cases ht
      exact h hne
    · intro h hne
      exact h s rfl hne

/-! ### Claim C2: idempotence of normalization -/

/-- C2: `normalize` (i.e. `validate_and_enhance_spec`) is idempotent: if
`normalize(I, M)` succeeds with result `r`, then `normalize(r, M)`
succeeds and returns `r` again. -/
theorem claim2_normalize_idempotent (spec : SpecDict) (md : Metadata)
    (r : SpecDict) (h : validate_and_enhance_spec spec md = .ok r) :
    validate_and_enhance_spec r md = .ok r := by
  obtain ⟨hbad, _, e_ct, e_x, e_y, e_c, e_agg, e_f, e_t, e_xl, e_yl⟩ :=
    validate_ok_proj h
  have hr_agg : r.aggregation.truthy = true := by
    rw [e_agg]
    by_cases hag : spec.aggregation.truthy
    · rw [if_pos hag]; exact hag
    · rw [if_neg hag]
      split <;> exact truthy_val_of_ne (by simp)
  have hr_title : r.title.truthy = true := by
    rw [e_t]
    by_cases htt : spec.title.truthy
    · rw [if_pos htt]; exact htt
    · rw [if_neg htt]
      exact truthy_val_of_ne (append_chart_ne_empty _)
  have hr_bad : xAxisBad md.columns r.x_axis = false := by rw [e_x]; exact hbad
  have hok : (validate_and_enhance_spec r md).isOk = true := by
    have := validate_isOk_iff r md
    by_cases hQ : (validate_and_enhance_spec r md).isOk = true
    · exact hQ
    · have hfalse := Bool.eq_false_iff.mpr hQ
      rcases (validate_isOk_iff r md).mp hfalse with hc | hc
      · rw [hr_bad] at hc; cases hc
      · rw [hr_title] at hc; cases hc.1
  cases hv : validate_and_enhance_spec r md with
  | error e => rw [hv] at hok; cases hok
  | ok r2 =>
    obtain ⟨_, _, f_ct, f_x, f_y, f_c, f_agg, f_f, f_t, f_xl, f_yl⟩ :=
      validate_ok_proj hv
    have hxeq : r2 = r := by
      apply specDict_ext
      · exact f_ct
      · exact f_x
      · rw [f_y, e_y, clearIfMissing_idem]
      · rw [f_c, e_c, clearIfMissing_idem]
      · rw [f_agg, if_pos hr_agg]
      · rw [f_f, e_f]
        cases hsf : spec.filters with
        | none => rfl
        | some fs => simp [normalizeFilters_idem]
      · rw [f_t, if_pos hr_title]
      · rw [f_xl]
        by_cases hxl : spec.x_label.truthy
        · have hrt : r.x_label.truthy = true := by
            rw [e_xl, if_pos hxl]; exact hxl
          rw [if_pos hrt]
        · have hval : r.x_label = defaultXLabel r.x_axis := by
            rw [e_xl, if_neg hxl, e_x]
          rw [← hval]
          split <;> rfl
      · rw [f_yl]
        by_cases hyl : spec.y_label.truthy
        · have hrt : r.y_label.truthy = true := by
            rw [e_yl, if_pos hyl]; exact hyl
          rw [if_pos hrt]
        · have hcy : clearIfMissing md.columns r.y_axis = r.y_axis := by
            rw [e_y, clearIfMissing_idem]
          rw [hcy]
          have hval : r.y_label = defaultYLabel r.y_axis := by
            rw [e_yl, if_neg hyl, e_y]
          rw [← hval]
          split <;> rfl
    rw [hxeq]

/-- C2 witness: idempotence applied at a concrete intent and metadata. -/
theorem claim2_witness :
    validate_and_enhance_spec
      { chart_type := .val "bar", x_axis := .val "Name",
        y_axis := .val "Age", title := .absent }
      { columns := ["Age", "Name"], numerical_columns := ["Age"] } =
      .ok { chart_type := .val "bar", x_axis := .val "Name",
            y_axis := .val "Age", color_by := .absent,
            aggregation := .val "mean", filters := none,
            title := .val "Bar Chart", x_label := .val "Name",
            y_label := .val "Age" } ∧
    validate_and_enhance_spec
      { chart_type := .val "bar", x_axis := .val "Name",
        y_axis := .val "Age", color_by := .absent,
        aggregation := .val "mean", filters := none,
        title := .val "Bar Chart", x_label := .val "Name",
        y_label := .val "Age" }
      { columns := ["Age", "Name"], numerical_columns := ["Age"] } =
      .ok { chart_type := .val "bar", x_axis := .val "Name",
            y_axis := .val "Age", color_by := .absent,
            aggregation := .val "mean", filters := none,
            title := .val "Bar Chart", x_label := .val "Name",
            y_label := .val "Age" } :=
  ⟨by rfl,
   claim2_normalize_idempotent
     { chart_type := .val "bar", x_axis := .val "Name",
       y_axis := .val "Age", title := .absent }
     { columns := ["Age", "Name"], numerical_columns := ["Age"] } _ (by rfl)⟩

/-! ### Claim C1: failure condition of normalization -/

/-- C1 counterexample to the claim as stated: a raw chart intent with no
`x_axis` field does NOT fail — `validate_and_enhance_spec` only raises
when `x_axis` is present, truthy, and unknown, so the guard is skipped
for an absent `x_axis` and normalization succeeds. -/
theorem claim1_counterexample :
    (validate_and_enhance_spec { chart_type := .val "bar" }
      { columns := ["Age"], numerical_columns := ["Age"] }).isOk = true := by
  rfl

/-- C1 (amended): `validate_and_enhance_spec` fails exactly when `x_axis`
is present as a non-empty string that is not a metadata column, or when
the title default is computed (`title` falsy) while `chart_type` is
present but `None` (the `.capitalize()` crash).  An intent whose `x_axis`
is absent or `None` does not fail on the `x_axis` guard; and a `y_axis` or
`color_by` naming a missing column is cleared to `None`, never fatal. -/
theorem claim1_failure_condition (spec : SpecDict) (md : Metadata) :
    ((validate_and_enhance_spec spec md).isOk = false ↔
      ((∃ s, spec.x_axis = PyOpt.val s ∧ s ≠ "" ∧ s ∉ md.columns) ∨
        (spec.title.truthy = false ∧ spec.chart_type = PyOpt.null))) ∧
    ((spec.x_axis = PyOpt.absent ∨ spec.x_axis = PyOpt.null) →
      ¬(spec.title.truthy = false ∧ spec.chart_type = PyOpt.null) →
      (validate_and_enhance_spec spec md).isOk = true) ∧
    (∀ r, validate_and_enhance_spec spec md = .ok r →
      (∀ y, spec.y_axis = PyOpt.val y → y ≠ "" → y ∉ md.columns →
        r.y_axis = PyOpt.null) ∧
      (∀ c, spec.color_by = PyOpt.val c → c ≠ "" → c ∉ md.columns →
        r.color_by = PyOpt.null)) := by
  refine ⟨?_, ?_, ?_⟩
  · rw [validate_isOk_iff, xAxisBad_true_iff]
  · intro hx hnc
    by_cases hQ : (validate_and_enhance_spec spec md).isOk = true
    · exact hQ
    · exfalso
      rcases (validate_isOk_iff spec md).mp (Bool.eq_false_iff.mpr hQ) with hc | hc
      · rcases (xAxisBad_true_iff md.columns spec.x_axis).mp hc with ⟨s, hs, _, _⟩
        rcases hx with hx | hx <;> rw [hx] at hs <;> cases hs
      · exact hnc hc
  · intro r hr
    have hproj := validate_ok_proj hr
    constructor
    · intro y hy hne hnm
      rw [hproj.2.2.2.2.1, hy]
      simp [clearIfMissing, hne, hnm]
    · intro c hc hne hnm
      rw [hproj.2.2.2.2.2.1, hc]
      simp [clearIfMissing, hne, hnm]

/-- C1 witness: the amended failure condition applied at a concrete
intent whose `x_axis` names a missing column. -/
theorem claim1_witness :
    (validate_and_enhance_spec
      { chart_type := .val "bar", x_axis := .val "Nope" }
      { columns := ["Age"], numerical_columns := ["Age"] }).isOk = false :=
  (claim1_failure_condition
    { chart_type := .val "bar", x_axis := .val "Nope" }
    { columns := ["Age"], numerical_columns := ["Age"] }).1.mpr
    (Or.inl ⟨"Nope", rfl, by decide, by decide⟩)

/-! ### Claim C4: filter-clause normalization -/

theorem normFilterOne_none_iff (cols : List String) (f : FilterDict) :
    normFilterOne cols f = none ↔
      (firstTruthy [f.column, f.column_name, f.col, f.field] = none ∨
       firstTruthy [f.operator, f.op, f.relation, f.operator_symbol] = none ∨
       filterValueOf f = none ∨
       (∃ o, firstTruthy [f.operator, f.op, f.relation, f.operator_symbol] =
          some o ∧ opNormalize o = "") ∨
       (∃ c, firstTruthy [f.column, f.column_name, f.col, f.field] = some c ∧
          resolveColumn cols c = none)) := by
  unfold normFilterOne
  cases hc : firstTruthy [f.column, f.column_name, f.col, f.field] with
  | none => simp [hc]
  | some c =>
    cases ho : firstTruthy [f.operator, f.op, f.relation, f.operator_symbol] with
    | none => simp [hc, ho]
    | some o =>
      cases hv : filterValueOf f with
      | none => simp [hc, ho, hv]
      | some pv =>
        simp only []
        by_cases hon : opNormalize o = ""
        · rw [if_pos hon]
          simp [hc, ho, hv, hon]
        · rw [if_neg hon]
          cases hr : resolveColumn cols c with
          | none => simp [hc, ho, hv, hon, hr]
          | some c2 => simp [hc, ho, hv, hon, hr]

theorem normFilterOne_some_shape {cols : List String} {f g : FilterDict}
    (h : normFilterOne cols f = some g) :
    ∃ c o pv c2,
      firstTruthy [f.column, f.column_name, f.col, f.field] = some c ∧
      firstTruthy [f.operator, f.op, f.relation, f.operator_symbol] = some o ∧
      filterValueOf f = some pv ∧
      resolveColumn cols c = some c2 ∧
      opNormalize o ≠ "" ∧
      g = mkNormFilter c2 (opNormalize o) pv := by
  unfold normFilterOne at h
  cases hc : firstTruthy [f.column, f.column_name, f.col, f.field] with
  | none => rw [hc] at h; simp at h
  | some c =>
  cases ho : firstTruthy [f.operator, f.op, f.relation, f.operator_symbol] with
  | none => rw [hc, ho] at h; simp at h
  | some o =>
  cases hv : filterValueOf f with
  | none => rw [hc, ho, hv] at h; simp at h
  | some pv =>
  rw [hc, ho, hv] at h
  simp only [] at h
  by_cases hon : opNormalize o = ""
  · rw [if_pos hon] at h; simp at h
  · rw [if_neg hon] at h
    cases hr : resolveColumn cols c with
    | none => rw [hr] at h; simp at h
    | some c2 =>
      rw [hr] at h
      simp only [Option.some_inj] at h
      exact ⟨c, o, pv, c2, rfl, rfl, rfl, hr, hon, h.symm⟩

/-- C4 counterexample to the claim as stated: an operator that is still
unrecognized after synonym normalization ('contains') is NOT dropped —
the code keeps the clause with the stripped, lower-cased operator,
because `op_map.get(op_clean, op_clean)` falls back to the cleaned
operator itself. -/
theorem claim4_counterexample :
    (validate_and_enhance_spec
      { chart_type := .val "bar", x_axis := .val "Age",
        filters := some [{ col := some "Age", op := some " Contains ",
                           val := some (some (.i 30)) }] }
      { columns := ["Age"], numerical_columns := ["Age"] }).map
        (fun r => r.filters) =
      .ok (some [mkNormFilter "Age" "contains" (PyVal.i 30)]) := by
  rfl

/-- C4 (amended): a filter clause resolves its column by exact match
first and case-insensitive match second, rewrites operator synonyms per
the table, and is dropped exactly when the column chain is falsy, the
operator chain is falsy (or strips to the empty string), the value is
absent/None, or the column resolves to no metadata column.  An operator
that is unrecognized after synonym normalization is KEPT (stripped and
lower-cased), not dropped.  The spec's concrete example normalizes as
stated. -/
theorem claim4_filter_normalization (cols : List String) :
    (∀ f, normFilterOne cols f = none ↔
      (firstTruthy [f.column, f.column_name, f.col, f.field] = none ∨
       firstTruthy [f.operator, f.op, f.relation, f.operator_symbol] = none ∨
       filterValueOf f = none ∨
       (∃ o, firstTruthy [f.operator, f.op, f.relation, f.operator_symbol] =
          some o ∧ opNormalize o = "") ∨
       (∃ c, firstTruthy [f.column, f.column_name, f.col, f.field] = some c ∧
          resolveColumn cols c = none))) ∧
    (∀ f g, normFilterOne cols f = some g →
      ∃ c o pv c2,
        firstTruthy [f.column, f.column_name, f.col, f.field] = some c ∧
        firstTruthy [f.operator, f.op, f.relation, f.operator_symbol] = some o ∧
        filterValueOf f = some pv ∧
        resolveColumn cols c = some c2 ∧
        g = mkNormFilter c2 (opNormalize o) pv) ∧
    (∀ c, c ∈ cols → resolveColumn cols c = some c) ∧
    (∀ c c2, resolveColumn cols c = some c2 →
      c2 ∈ cols ∧ (c2 = c ∨ pyLower c2 = pyLower c)) ∧
    (∀ fs, (normalizeFilters cols fs).length ≤ fs.length) ∧
    (opNormalize "=" = "==" ∧ opNormalize "==" = "==" ∧
     opNormalize "equals" = "==" ∧ opNormalize "is" = "==" ∧
     opNormalize "!=" = "!=" ∧ opNormalize "neq" = "!=" ∧
     opNormalize "not equals" = "!=" ∧ opNormalize ">" = ">" ∧
     opNormalize "<" = "<" ∧ opNormalize ">=" = ">=" ∧
     opNormalize "<=" = "<=") ∧
    (normFilterOne ["Age"]
      { col := some "Age", op := some "is", val := some (some (.i 30)) } =
      some (mkNormFilter "Age" "==" (PyVal.i 30))) := by
  refine ⟨normFilterOne_none_iff cols, ?_, ?_, ?_, ?_, by decide, by rfl⟩
  · intro f g h
    obtain ⟨c, o, pv, c2, h1, h2, h3, h4, _, h6⟩ := normFilterOne_some_shape h
    exact ⟨c, o, pv, c2, h1, h2, h3, h4, h6⟩
  · intro c hc
    exact resolveColumn_of_mem hc
  · intro c c2 h
    exact resolveColumn_mem h
  · intro fs
    exact List.length_filterMap_le _ _

/-- C4 witness: the amended drop/keep characterization applied at
concrete inputs — the clause naming a non-existent column is dropped,
shortening the list. -/
theorem claim4_witness :
    normFilterOne ["Age"]
      { col := some "Nope", op := some "is", val := some (some (.i 30)) } =
      none ∧
    (normalizeFilters ["Age"]
      [{ col := some "Nope", op := some "is", val := some (some (.i 30)) }]).length ≤ 1 :=
  ⟨(claim4_filter_normalization ["Age"]).1 _ |>.mpr
      (Or.inr (Or.inr (Or.inr (Or.inr ⟨"Nope", by rfl, by rfl⟩)))),
   (claim4_filter_normalization ["Age"]).2.2.2.2.1
      [{ col := some "Nope", op := some "is", val := some (some (.i 30)) }]⟩

/-! ### Claim C8: defaulting of aggregation, title and labels -/

/-- C8 counterexample to the claim as stated: a `y_axis` that was cleared
(present but `None`) makes the `y_label` default `None`, not the literal
`"Value"` — `spec.get('y_axis', 'Value')` only returns `'Value'` when the
`y_axis` key is entirely missing. -/
theorem claim8_counterexample :
    (validate_and_enhance_spec
      { chart_type := .val "bar", x_axis := .val "a",
        y_axis := .val "nope" }
      { columns := ["a"], numerical_columns := [] }).map
        (fun r => (r.y_axis, r.y_label)) =
      .ok (PyOpt.null, PyOpt.null) := by
  rfl

/-- C8 (amended): with `numerical_columns ⊆ columns` (as produced by the
profiler), a successful normalization fills a falsy `aggregation` with
`'mean'` exactly when `y_axis` holds a name in `numerical_columns` (else
`'count'`); a falsy `title` becomes the capitalized chart type + `' Chart'`;
a falsy `x_label` becomes the `x_axis` value (or `None`); and a falsy
`y_label` becomes the final `y_axis` value — `None` when `y_axis` is null
or was cleared, and the literal `"Value"` only when the `y_axis` key is
entirely absent. -/
theorem claim8_defaults (spec : SpecDict) (md : Metadata) (r : SpecDict)
    (hsub : ∀ c ∈ md.numerical_columns, c ∈ md.columns)
    (h : validate_and_enhance_spec spec md = .ok r) :
    (spec.aggregation.truthy = false →
      ((r.aggregation = PyOpt.val "mean" ↔
        (∃ y, spec.y_axis = PyOpt.val y ∧ y ∈ md.numerical_columns)) ∧
       (r.aggregation = PyOpt.val "mean" ∨ r.aggregation = PyOpt.val "count"))) ∧
    (spec.aggregation.truthy = true → r.aggregation = spec.aggregation) ∧
    (spec.title.truthy = false → ∀ ct, spec.chart_type = PyOpt.val ct →
      r.title = PyOpt.val (pyCapitalize ct ++ " Chart")) ∧
    (spec.title.truthy = true → r.title = spec.title) ∧
    (spec.x_label.truthy = false → r.x_label = defaultXLabel spec.x_axis) ∧
    (spec.x_label.truthy = true → r.x_label = spec.x_label) ∧
    (spec.y_label.truthy = false →
      (r.y_label = defaultYLabel r.y_axis ∧
       (spec.y_axis = PyOpt.absent → r.y_label = PyOpt.val "Value") ∧
       (r.y_axis = PyOpt.null → r.y_label = PyOpt.null))) ∧
    (spec.y_label.truthy = true → r.y_label = spec.y_label) := by
  obtain ⟨_, _, e_ct, e_x, e_y, e_c, e_agg, e_f, e_t, e_xl, e_yl⟩ :=
    validate_ok_proj h
  refine ⟨?_, ?_, ?_, ?_, ?_, ?_, ?_, ?_⟩
  · intro hag
    rw [e_agg, if_neg (by rw [hag]; exact Bool.false_ne_true)]
    constructor
    · constructor
      · intro hmean
        by_cases hnum : yIsNumeric md (clearIfMissing md.columns spec.y_axis)
        · cases hy : spec.y_axis with
          | absent => rw [hy] at hnum; cases hnum
          | null => rw [hy] at hnum; cases hnum
          | val y =>
            rw [hy] at hnum
            have hred : clearIfMissing md.columns (PyOpt.val y) =
                (if y ≠ "" ∧ y ∉ md.columns then PyOpt.null else PyOpt.val y) :=
              rfl
            rw [hred] at hnum
            by_cases hcl : y ≠ "" ∧ y ∉ md.columns
            · rw [if_pos hcl] at hnum; cases hnum
            · rw [if_neg hcl] at hnum
              exact ⟨y, rfl, by simpa [yIsNumeric] using hnum⟩
        · rw [if_neg hnum] at hmean
          exact absurd hmean (by decide)
      · rintro ⟨y, hy, hnum⟩
        have hcl : clearIfMissing md.columns spec.y_axis = .val y := by
          rw [hy]
          have hred : clearIfMissing md.columns (PyOpt.val y) =
              (if y ≠ "" ∧ y ∉ md.columns then PyOpt.null else PyOpt.val y) :=
            rfl
          rw [hred]
          rw [if_neg (by intro hand; exact hand.2 (hsub y hnum))]
        rw [hcl]
        rw [if_pos (by simpa [yIsNumeric] using hnum)]
    · split
      · exact Or.inl rfl
      · exact Or.inr rfl
  · intro hag
    rw [e_agg, if_pos hag]
  · intro ht ct hct
    rw [e_t, if_neg (by rw [ht]; exact Bool.false_ne_true), hct]
  · intro ht
    rw [e_t, if_pos ht]
  · intro hxl
    rw [e_xl, if_neg (by rw [hxl]; exact Bool.false_ne_true)]
  · intro hxl
    rw [e_xl, if_pos hxl]
  · intro hyl
    have hbase : r.y_label = defaultYLabel r.y_axis := by
      rw [e_yl, if_neg (by rw [hyl]; exact Bool.false_ne_true), e_y]
    refine ⟨hbase, ?_, ?_⟩
    · intro hy
      rw [hbase, e_y, hy]
      rfl
    · intro hy
      rw [hbase, hy]
      rfl
  · intro hyl
    rw [e_yl, if_pos hyl]

/-- C8 witness: the amended defaulting rules applied at a concrete
intent: numeric `y_axis` gives `aggregation = 'mean'` and
`title = 'Bar Chart'`. -/
theorem claim8_witness :
    (validate_and_enhance_spec
      { chart_type := .val "bar", x_axis := .val "Name", y_axis := .val "Age" }
      { columns := ["Age", "Name"], numerical_columns := ["Age"] } =
      .ok { chart_type := .val "bar", x_axis := .val "Name",
            y_axis := .val "Age", color_by := .absent,
            aggregation := .val "mean", filters := none,
            title := .val "Bar Chart", x_label := .val "Name",
            y_label := .val "Age" }) ∧
    PyOpt.val "mean" = PyOpt.val "mean" := by
  have hmean := (claim8_defaults
    { chart_type := .val "bar", x_axis := .val "Name", y_axis := .val "Age" }
    { columns := ["Age", "Name"], numerical_columns := ["Age"] }
    { chart_type := .val "bar", x_axis := .val "Name",
      y_axis := .val "Age", color_by := .absent,
      aggregation := .val "mean", filters := none,
      title := .val "Bar Chart", x_label := .val "Name",
      y_label := .val "Age" }
    (by decide) (by rfl)).1 (by rfl)
  exact ⟨by rfl, (hmean.1.mpr ⟨"Age", rfl, by decide⟩)⟩

/-! ### Model Bridge: JSON extraction (`extract_json_from_text`) -/

/-- The distinct failure modes of `extract_json_from_text` and the
subsequent `json.loads` call. -/
inductive ExtractErr where
  | emptyText
  | noJson
  | unexpectedClosing
  | mismatched
  | unbalanced
  | invalidJson (msg : String)
deriving DecidableEq, Repr

/-- JSON values, as `json.loads` produces them on the fragment this
repository exchanges with the model (null, booleans, integers, strings,
arrays, objects; fractional/exponent numerals are outside the modelled
fragment and rejected by the parser model). -/
inductive Json where
  | jnull
  | jbool (b : Bool)
  | jnum (n : Int)
  | jstr (s : String)
  | jarr (xs : List Json)
  | jobj (kvs : List (String × Json))
deriving Repr

/-- Is this character one of the two opening brackets the scan looks for? -/
def isOpenBracket (c : Char) : Bool :=
  c = '\x7b' || c = '['

/-- Is this character one of the two closing brackets? -/
def isCloseBracket (c : Char) : Bool :=
  c = '\x7d' || c = ']'

/-- The bracket-balancing loop of `extract_json_from_text`: walk the
characters from the first opening bracket, pushing openers, popping on
matching closers, failing on mismatch, and returning `i + 1` (the number
of consumed characters) as soon as the stack empties.  Falling off the
end with a non-empty stack is the `unbalanced` failure. -/
def scanLoop : List Char → List Char → Nat → Except ExtractErr Nat
  | [], _, _ => .error .unbalanced
  | ch :: rest, stack, n =>
    if isOpenBracket ch then
      scanLoop rest (ch :: stack) (n + 1)
    else if isCloseBracket ch then
      match stack with
      | [] => .error .unexpectedClosing
      | top :: stack2 =>
        if (top = '\x7b' ∧ ch ≠ '\x7d') ∨ (top = '[' ∧ ch ≠ ']') then
          .error .mismatched
        else if stack2 = [] then .ok (n + 1)
        else scanLoop rest stack2 (n + 1)
    else
      scanLoop rest stack (n + 1)

/-- JSON whitespace, as `json.loads` skips it. -/
def jsonIsWs (c : Char) : Bool :=
  c = ' ' || c = '\t' || c = '\n' || c = '\r'

/-- Skip JSON whitespace. -/
def skipWs (cs : List Char) : List Char :=
  cs.dropWhile jsonIsWs

/-- JSON string escapes (the `\\uXXXX` form is outside the modelled
fragment). -/
def parseEscape : Char → Option Char
  | 'n' => some '\n'
  | '"' => some '"'
  | 't' => some '\t'
  | '\\' => some '\\'
  | 'r' => some '\r'
  | '/' => some '/'
  | 'b' => some '\x08'
  | 'f' => some '\x0c'
  | _ => none

/-- Parse the body of a JSON string (after the opening quote), returning
the decoded characters and the remaining input. -/
def parseStringBody : List Char → Except String (List Char × List Char)
  | [] => .error "Unterminated string"
  | c :: rest =>
    if c = '"' then .ok ([], rest)
    else if c = '\\' then
      match rest with
      | [] => .error "Unterminated string"
      | e :: rest2 =>
        match parseEscape e with
        | none => .error "Invalid escape"
        | some ec => do
          let (s, r) ← parseStringBody rest2
          .ok (ec :: s, r)
    else do
      let (s, r) ← parseStringBody rest
      .ok (c :: s, r)

/-- Parse a JSON integer literal (optional minus, digits).  Fractional
and exponent numerals are outside the modelled fragment. -/
def parseIntLit (cs : List Char) : Except String (Int × List Char) :=
  let neg := match cs with
             | '-' :: _ => true
             | _ => false
  let cs2 := match cs with
             | '-' :: r => r
             | r => r
  let ds : List Char := cs2.takeWhile (fun c => c.isDigit)
  let rest : List Char := cs2.dropWhile (fun c => c.isDigit)
  if ds = [] then .error "Expecting value"
  else
    match rest with
    | '.' :: _ => .error "numeric literal outside modelled fragment"
    | 'e' :: _ => .error "numeric literal outside modelled fragment"
    | 'E' :: _ => .error "numeric literal outside modelled fragment"
    | _ =>
      let n : Nat := ds.foldl (fun a c => a * 10 + (c.toNat - 48)) 0
      .ok (if neg then -(n : Int) else (n : Int), rest)

mutual

/-- Recursive-descent model of `json.loads` on one value. -/
def parseValue : Nat → List Char → Except String (Json × List Char)
  | 0, _ => .error "fuel exhausted"
  | fuel + 1, cs0 =>
    match skipWs cs0 with
    | [] => .error "Expecting value"
    | c :: rest =>
      if c = '"' then do
        let (s, r) ← parseStringBody rest
        .ok (.jstr ⟨s⟩, r)
      else if c = '\x7b' then do
        let (kvs, r) ← parseObjItems fuel rest
        .ok (.jobj kvs, r)
      else if c = '[' then do
        let (xs, r) ← parseArrItems fuel rest
        .ok (.jarr xs, r)
      else if c = 'n' then
        match rest with
        | 'u' :: 'l' :: 'l' :: r => .ok (.jnull, r)
        | _ => .error "Expecting value"
      else if c = 't' then
        match rest with
        | 'r' :: 'u' :: 'e' :: r => .ok (.jbool true, r)
        | _ => .error "Expecting value"
      else if c = 'f' then
        match rest with
        | 'a' :: 'l' :: 's' :: 'e' :: r => .ok (.jbool false, r)
        | _ => .error "Expecting value"
      else do
        let (n, r) ← parseIntLit (c :: rest)
        .ok (.jnum n, r)

/-- Items of a JSON array, after the opening `[`. -/
def parseArrItems : Nat → List Char → Except String (List Json × List Char)
  | fuel, cs =>
    match skipWs cs with
    | ']' :: r => .ok ([], r)
    | cs2 =>
      match fuel with
      | 0 => .error "fuel exhausted"
      | fuel + 1 => do
        let (v, r) ← parseValue fuel cs2
        match skipWs r with
        | ',' :: r3 => do
          let (vs, r4) ← parseArrItems fuel r3
          .ok (v :: vs, r4)
        | ']' :: r3 => .ok ([v], r3)
        | _ => .error "Expecting delimiter"

/-- Items of a JSON object, after the opening brace. -/
def parseObjItems : Nat → List Char → Except String (List (String × Json) × List Char)
  | fuel, cs =>
    match skipWs cs with
    | '\x7d' :: r => .ok ([], r)
    | '"' :: r =>
      match fuel with
      | 0 => .error "fuel exhausted"
      | fuel + 1 => do
        let (k, r2) ← parseStringBody r
        match skipWs r2 with
        | ':' :: r3 => do
          let (v, r4) ← parseValue fuel r3
          match skipWs r4 with
          | ',' :: r5 => do
            let (kvs, r6) ← parseObjItems fuel r5
            .ok ((⟨k⟩, v) :: kvs, r6)
          | '\x7d' :: r5 => .ok ([(⟨k⟩, v)], r5)
          | _ => .error "Expecting delimiter"
        | _ => .error "Expecting colon"
    | _ => .error "Expecting property name"

end

/-- Model of `json.loads` on the extracted substring: parse one value and
require only whitespace afterwards. -/
def jsonLoads (cs : List Char) : Except String Json := do
  let (v, r) ← parseValue (cs.length + 1) cs
  if skipWs r = [] then .ok v else .error "Extra data"

/-- Embedding of `extract_json_from_text`: reject empty text, find the
earliest `{` or `[`, balance brackets from there, and `json.loads` the
delimited substring. -/
def extract_json_from_text (text : String) : Except ExtractErr Json :=
  if text = "" then .error .emptyText
  else
    let chars := text.toList
    match chars.findIdx? isOpenBracket with
    | none => .error .noJson
    | some start =>
      match scanLoop (chars.drop start) [] 0 with
      | .error e => .error e
      | .ok len =>
        match jsonLoads ((chars.drop start).take len) with
        | .ok v => .ok v
        | .error m => .error (.invalidJson m)

/-! ### Claim C3: the bracket scan against its specification -/

/-- One step of the bracket-stack automaton as the specification words it:
push an opener, pop a matching closer, fail (`none`) on a mismatched or
unmatched closer; other characters leave the stack unchanged. -/
def stackStep (stack : List Char) (ch : Char) : Option (List Char) :=
  if isOpenBracket ch then some (ch :: stack)
  else if isCloseBracket ch then
    match stack with
    | [] => none
    | top :: rest =>
      if (top = '\x7b' ∧ ch = '\x7d') ∨ (top = '[' ∧ ch = ']') then some rest
      else none
  else some stack

/-- Run the bracket-stack automaton over a character list. -/
def stackRun : List Char → List Char → Option (List Char)
  | [], stack => some stack
  | c :: cs, stack =>
    match stackStep stack c with
    | none => none
    | some s2 => stackRun cs s2

theorem stackRun_cons (c : Char) (cs : List Char) (stack : List Char) :
    stackRun (c :: cs) stack =
      match stackStep stack c with
      | none => none
      | some s2 => stackRun cs s2 := rfl

/-- Soundness of the scan loop against the stack automaton: with a
non-empty stack of open brackets, a successful scan consumes `k ≥ 1`
characters, the automaton empties the stack exactly at position `k`, and
at no earlier position. -/
theorem scanLoop_ok_spec :
    ∀ (cs stack : List Char) (n len : Nat),
      (∀ c ∈ stack, c = '\x7b' ∨ c = '[') →
      stack ≠ [] →
      scanLoop cs stack n = .ok len →
      ∃ k, 1 ≤ k ∧ len = n + k ∧ k ≤ cs.length ∧
        stackRun (cs.take k) stack = some [] ∧
        ∀ j, 1 ≤ j → j < k → stackRun (cs.take j) stack ≠ some [] := by
  intro cs
  induction cs with
  | nil =>
    intro stack n len _ _ h
    simp [scanLoop] at h
  | cons ch rest ih =>
    intro stack n len hst hne h
    unfold scanLoop at h
    by_cases ho : isOpenBracket ch
    · rw [if_pos ho] at h
      have hst2 : ∀ c ∈ ch :: stack, c = '\x7b' ∨ c = '[' := by
        intro c hc
        rcases List.mem_cons.mp hc with rfl | hc
        · simpa [isOpenBracket] using ho
        · exact hst c hc
      obtain ⟨k, hk1, hlen, hkle, hrun, hmin⟩ :=
        ih (ch :: stack) (n + 1) len hst2 (by simp) h
      refine ⟨k + 1, by omega, by omega, by simp; omega, ?_, ?_⟩
      · rw [List.take_succ_cons, stackRun_cons]
        have : stackStep stack ch = some (ch :: stack) := by
          unfold stackStep
          rw [if_pos ho]
        rw [this]
        exact hrun
      · intro j hj1 hjk
        match j, hj1 with
        | 1, _ =>
          rw [List.take_succ_cons, List.take_zero, stackRun_cons]
          have : stackStep stack ch = some (ch :: stack) := by
            unfold stackStep
            rw [if_pos ho]
          rw [this]
          simp [stackRun]
        | j' + 2, _ =>
          rw [List.take_succ_cons, stackRun_cons]
          have : stackStep stack ch = some (ch :: stack) := by
            unfold stackStep
            rw [if_pos ho]
          rw [this]
          exact hmin (j' + 1) (by omega) (by omega)
    · by_cases hc : isCloseBracket ch
      · rw [if_neg ho, if_pos hc] at h
        cases stack with
        | nil => exact absurd rfl hne
        | cons top stack2 =>
          dsimp only at h
          by_cases hm : (top = '\x7b' ∧ ch ≠ '\x7d') ∨ (top = '[' ∧ ch ≠ ']')
          · rw [if_pos hm] at h
            simp at h
          · rw [if_neg hm] at h
            have hmatch : (top = '\x7b' ∧ ch = '\x7d') ∨ (top = '[' ∧ ch = ']') := by
              rcases hst top (by simp) with h1 | h1
              · left
                refine ⟨h1, ?_⟩
                by_contra hchne
                exact hm (Or.inl ⟨h1, hchne⟩)
              · right
                refine ⟨h1, ?_⟩
                by_contra hchne
                exact hm (Or.inr ⟨h1, hchne⟩)
            have hstep : stackStep (top :: stack2) ch = some stack2 := by
              unfold stackStep
              rw [if_neg (by simpa [isOpenBracket] using ho), if_pos hc]
              simp only [if_pos hmatch]
            by_cases hs2 : stack2 = []
            · rw [if_pos hs2] at h
              simp only [Except.ok.injEq] at h
              refine ⟨1, le_refl 1, by omega, by simp, ?_, ?_⟩
              · rw [List.take_succ_cons, List.take_zero, stackRun_cons, hstep, hs2]
                rfl
              · intro j hj1 hjk
                omega
            · rw [if_neg hs2] at h
              have hst2 : ∀ c ∈ stack2, c = '\x7b' ∨ c = '[' := by
                intro c hcm
                exact hst c (List.mem_cons_of_mem _ hcm)
              obtain ⟨k, hk1, hlen, hkle, hrun, hmin⟩ :=
                ih stack2 (n + 1) len hst2 hs2 h
              refine ⟨k + 1, by omega, by omega, by simp; omega, ?_, ?_⟩
              · rw [List.take_succ_cons, stackRun_cons, hstep]
                exact hrun
              · intro j hj1 hjk
                match j, hj1 with
                | 1, _ =>
                  rw [List.take_succ_cons, List.take_zero, stackRun_cons, hstep]
                  simpa [stackRun] using hs2
                | j' + 2, _ =>
                  rw [List.take_succ_cons, stackRun_cons, hstep]
                  exact hmin (j' + 1) (by omega) (by omega)
      · rw [if_neg ho, if_neg hc] at h
        have hstep : stackStep stack ch = some stack := by
          unfold stackStep
          rw [if_neg (by simpa using ho), if_neg (by simpa using hc)]
        obtain ⟨k, hk1, hlen, hkle, hrun, hmin⟩ :=
          ih stack (n + 1) len hst hne h
        refine ⟨k + 1, by omega, by omega, by simp; omega, ?_, ?_⟩
        · rw [List.take_succ_cons, stackRun_cons, hstep]
          exact hrun
        · intro j hj1 hjk
          match j, hj1 with
          | 1, _ =>
            rw [List.take_succ_cons, List.take_zero, stackRun_cons, hstep]
            simpa [stackRun] using hne
          | j' + 2, _ =>
            rw [List.take_succ_cons, stackRun_cons, hstep]
            exact hmin (j' + 1) (by omega) (by omega)

/-- C3: JSON extraction.  (i) Text with no opening bracket always fails
(empty-text or no-JSON error).  (ii) The scan, started on an opening
bracket, succeeds exactly up to the first position at which the
spec-level bracket automaton (strict nesting, `{`↔`}`, `[`↔`]`) empties
its stack.  (iii) On success the extraction began at the earliest
occurrence of `{` or `[` in the text.  (iv) The fenced-prose example
parses to the object a↦1; the unbalanced example fails with the
mismatched-bracket error. -/
theorem claim3_json_extraction :
    (∀ text : String, (∀ c ∈ text.toList, isOpenBracket c = false) →
      (extract_json_from_text text = .error .emptyText ∨
       extract_json_from_text text = .error .noJson)) ∧
    (∀ (ch : Char) (rest : List Char) (len : Nat), isOpenBracket ch = true →
      scanLoop (ch :: rest) [] 0 = .ok len →
      1 ≤ len ∧ len ≤ rest.length + 1 ∧
      stackRun ((ch :: rest).take len) [] = some [] ∧
      ∀ j, 1 ≤ j → j < len → stackRun ((ch :: rest).take j) [] ≠ some []) ∧
    (∀ (text : String) (v : Json), extract_json_from_text text = .ok v →
      ∃ start, text.toList.findIdx? isOpenBracket = some start ∧
        ∃ hlt : start < text.toList.length,
          isOpenBracket (text.toList.get ⟨start, hlt⟩) = true ∧
          ∀ j (hj : j < text.toList.length), j < start →
            isOpenBracket (text.toList.get ⟨j, hj⟩) = false) ∧
    (extract_json_from_text
      "Sure! Here is it: ```json\n\x7b\"a\":1\x7d\n```\nThanks" =
      .ok (Json.jobj [("a", Json.jnum 1)])) ∧
    (extract_json_from_text "\x7b\"a\": [1,2\x7d" = .error .mismatched) := by
  refine ⟨?_, ?_, ?_, by rfl, by rfl⟩
  · intro text hnob
    unfold extract_json_from_text
    by_cases he : text = ""
    · rw [if_pos he]
      exact Or.inl rfl
    · rw [if_neg he]
      dsimp only
      have : text.toList.findIdx? isOpenBracket = none :=
        List.findIdx?_eq_none_iff.mpr hnob
      rw [this]
      exact Or.inr rfl
  · intro ch rest len ho h
    unfold scanLoop at h
    rw [if_pos ho] at h
    obtain ⟨k, hk1, hlen, hkle, hrun, hmin⟩ :=
      scanLoop_ok_spec rest [ch] 1 len
        (by intro c hcm
            rcases List.mem_singleton.mp hcm with rfl
            simpa [isOpenBracket] using ho)
        (by simp) h
    have hstep : stackStep [] ch = some [ch] := by
      unfold stackStep
      rw [if_pos ho]
    refine ⟨by omega, by omega, ?_, ?_⟩
    · have hlen2 : len = k + 1 := by omega
      rw [hlen2, List.take_succ_cons, stackRun_cons, hstep]
      exact hrun
    · intro j hj1 hjlen
      match j, hj1 with
      | 1, _ =>
        rw [List.take_succ_cons, List.take_zero, stackRun_cons, hstep]
        simp [stackRun]
      | j' + 2, _ =>
        rw [List.take_succ_cons, stackRun_cons, hstep]
        exact hmin (j' + 1) (by omega) (by omega)
  · intro text v h
    unfold extract_json_from_text at h
    by_cases he : text = ""
    · rw [if_pos he] at h
      cases h
    · rw [if_neg he] at h
      dsimp only at h
      cases hidx : text.toList.findIdx? isOpenBracket with
      | none => rw [hidx] at h; cases h
      | some start =>
        obtain ⟨hlt, hp, hearlier⟩ :=
          List.findIdx?_eq_some_iff_getElem.mp hidx
        refine ⟨start, rfl, hlt, ?_, ?_⟩
        · simpa [List.get_eq_getElem] using hp
        · intro j hj hjs
          have := hearlier j hjs
          simpa [List.get_eq_getElem] using this

/-- C3 witness: the scan characterization applied to the two-character
text consisting of one balanced brace pair. -/
theorem claim3_witness :
    1 ≤ 2 ∧ 2 ≤ 1 + 1 ∧
    stackRun (['\x7b', '\x7d'].take 2) [] = some [] ∧
    (∀ j, 1 ≤ j → j < 2 → stackRun (['\x7b', '\x7d'].take j) [] ≠ some []) :=
  claim3_json_extraction.2.1 '\x7b' ['\x7d'] 2 (by decide) (by rfl)

/-! ### The dataframe model

pandas dataframes are modelled column-major over exact rationals.  A cell
is a number, a string, or null (NaN/None); a column carries a dtype tag
(`int64`/`float64` are collapsed where the source only tests membership
in the numeric-dtype list; `object`/`string` are collapsed to `dObj`).
Frames with boolean/datetime dtypes and frames with duplicate column
labels are outside the modelled fragment except where noted. -/

inductive DType where
  | dInt
  | dFloat
  | dObj
deriving DecidableEq, Repr

/-- Membership in the numeric-dtype families the source tests
(`select_dtypes(include=['number'])`, the dtype list in
`_create_histogram`). -/
def DType.isNumeric : DType → Bool
  | .dInt => true
  | .dFloat => true
  | .dObj => false

inductive Cell where
  | num (q : ℚ)
  | str (s : String)
  | null
deriving DecidableEq, Repr

/-- The numeric value of a cell, if any (`NaN`/strings yield none). -/
def cellNum : Cell → Option ℚ
  | .num q => some q
  | _ => none

structure Col where
  dtype : DType
  cells : List Cell
deriving DecidableEq, Repr

structure DF where
  cols : List (String × Col)
deriving DecidableEq, Repr

def DF.names (df : DF) : List String :=
  df.cols.map Prod.fst

def DF.nrows (df : DF) : Nat :=
  (df.cols.map (fun p => p.2.cells.length)).foldr max 0

def DF.findCol (df : DF) (name : String) : Option Col :=
  (df.cols.find? (fun p => p.1 = name)).map Prod.snd

/-- The cell of column `name` in row `i` (null off the end). -/
def DF.cellAt (df : DF) (name : String) (i : Nat) : Cell :=
  match df.findCol name with
  | some c => c.cells.getD i .null
  | none => .null

/-- `df.empty`: true when either axis has length 0. -/
def DF.isEmpty (df : DF) : Bool :=
  df.cols.isEmpty || df.nrows = 0

/-- Keep the cells whose row index satisfies `keep`. -/
def pickRowsAux (keep : Nat → Bool) : Nat → List Cell → List Cell
  | _, [] => []
  | i, c :: cs =>
    if keep i then c :: pickRowsAux keep (i + 1) cs
    else pickRowsAux keep (i + 1) cs

/-- Boolean-mask row selection (`df[mask]`): a fresh frame with the rows
whose index satisfies `keep`. -/
def DF.filterRows (df : DF) (keep : Nat → Bool) : DF :=
  { cols := df.cols.map (fun p =>
      (p.1, { dtype := p.2.dtype, cells := pickRowsAux keep 0 p.2.cells })) }

/-- `df[names]` column selection, in the requested order, duplicates in
`names` preserved (pandas duplicates the column). -/
def DF.selectCols (df : DF) (names : List String) : DF :=
  { cols := names.filterMap (fun n =>
      (df.cols.find? (fun p => p.1 = n)).map (fun p => (n, p.2))) }

/-- `dropna(axis=1, how='all')`: drop columns whose cells are all null. -/
def DF.dropAllNullCols (df : DF) : DF :=
  { cols := df.cols.filter (fun p => p.2.cells.any (fun c => c ≠ .null)) }

/-- `dropna(how='all')`: drop rows that are null in every column. -/
def DF.dropAllNullRows (df : DF) : DF :=
  df.filterRows (fun i => df.cols.any (fun p => p.2.cells.getD i .null ≠ .null))

/-- `select_dtypes(include=['number'])`. -/
def DF.selectNumeric (df : DF) : DF :=
  { cols := df.cols.filter (fun p => p.2.dtype.isNumeric) }

/-- `df[column] = newCol` (in place in the source; pure here — the heap
embedding below tracks the in-place nature). -/
def DF.setCol (df : DF) (name : String) (c : Col) : DF :=
  { cols := df.cols.map (fun p => if p.1 = name then (name, c) else p) }

/-- Embedding of `ChartGenerator._prepare_data`. -/
def _prepare_data (df : DF) (columns_needed : List String)
    (numeric_only : Bool) : Except String DF :=
  let cols_available := columns_needed.filter (fun c => df.names.contains c)
  if cols_available.isEmpty then
    .error "None of the required columns found in data"
  else
    let d3 := ((df.selectCols cols_available).dropAllNullCols).dropAllNullRows
    let d4 := if numeric_only then d3.selectNumeric else d3
    if numeric_only && d4.isEmpty then .error "No numeric columns found"
    else if d4.isEmpty then .error "Data is empty after preparation"
    else .ok d4

/-- Python/pandas parsing of a decimal string: optional sign, digits with
optional fraction and exponent.  (`inf`/`nan` spellings are outside the
modelled fragment.) -/
def pyFloatParse (s : String) : Option ℚ :=
  let cs := pyStripList s.toList
  let (sgn, cs1) : ℚ × List Char :=
    match cs with
    | '-' :: r => (-1, r)
    | '+' :: r => (1, r)
    | r => (1, r)
  let ds : List Char := cs1.takeWhile (fun c => c.isDigit)
  let r1 : List Char := cs1.dropWhile (fun c => c.isDigit)
  let digitsVal : List Char → ℚ :=
    fun l => ((l.foldl (fun a c => a * 10 + (c.toNat - 48)) 0 : Nat) : ℚ)
  let (fs, r2) : List Char × List Char :=
    match r1 with
    | '.' :: r => (r.takeWhile (fun c => c.isDigit), r.dropWhile (fun c => c.isDigit))
    | r => ([], r)
  if ds.isEmpty && fs.isEmpty then none
  else
    let mantissa : ℚ := sgn * (digitsVal ds + digitsVal fs / ((10 : ℚ) ^ fs.length))
    match r2 with
    | [] => some mantissa
    | e :: r3 =>
      if e = 'e' || e = 'E' then
        let (esgn, r4) : Int × List Char :=
          match r3 with
          | '-' :: r => (-1, r)
          | '+' :: r => (1, r)
          | r => (1, r)
        let eds : List Char := r4.takeWhile (fun c => c.isDigit)
        let r5 : List Char := r4.dropWhile (fun c => c.isDigit)
        if eds.isEmpty ∨ ¬ r5.isEmpty then none
        else some (mantissa * (10 : ℚ) ^ (esgn * (eds.foldl (fun a c => a * 10 + (c.toNat - 48)) 0 : Nat)))
      else none

/-- `pd.to_numeric(..., errors='coerce')` on one cell: numbers pass,
parseable strings become numbers, everything else becomes NaN. -/
def toNumericCell : Cell → Cell
  | .num q => .num q
  | .null => .null
  | .str s =>
    match pyFloatParse s with
    | some q => .num q
    | none => .null

/-- Embedding of `ChartGenerator._ensure_numeric`: copy, coerce the
column when its dtype is object, drop the rows whose coerced cell is
NaN, fail if that leaves no rows. -/
def _ensure_numeric (df : DF) (column : String) : Except String DF :=
  if ¬ df.names.contains column then
    .error "Column not found"
  else
    match df.findCol column with
    | none => .error "Column not found"
    | some col =>
      if col.dtype ≠ .dObj then .ok df
      else
        let coerced : List Cell := col.cells.map toNumericCell
        let df2 := df.setCol column { dtype := .dFloat, cells := coerced }
        let df3 := df2.filterRows (fun i => coerced.getD i .null ≠ .null)
        if df3.isEmpty then
          .error "Column contains no valid numeric values"
        else .ok df3

/-! ### Chart builders and `generate_chart` -/

/-- `series == value` for one cell (pandas element-wise equality: NaN and
mismatched types compare unequal without raising; Python booleans compare
as the integers 0/1). -/
def cellEqPy : Cell → PyVal → Bool
  | .num q, .i n => q = (n : ℚ)
  | .num q, .b b => q = (if b then (1 : ℚ) else 0)
  | .num _, .s _ => false
  | .str s, .s t => s = t
  | .str _, _ => false
  | .null, _ => false

/-- First-occurrence deduplication. -/
def dedupFirst {α : Type} [DecidableEq α] : List α → List α
  | [] => []
  | c :: cs => c :: dedupFirst (cs.filter (fun d => d ≠ c))
termination_by l => l.length
decreasing_by
  simp only [List.length_cons]
  exact Nat.lt_succ_of_le (List.length_filter_le _ _)

/-- Insertion into a `le`-sorted list. -/
def insertSorted {α : Type} (le : α → α → Bool) (a : α) : List α → List α
  | [] => [a]
  | b :: bs => if le a b then a :: b :: bs else b :: insertSorted le a bs

/-- Insertion sort (stable), modelling pandas' ascending key sort. -/
def sortByLe {α : Type} (le : α → α → Bool) (l : List α) : List α :=
  l.foldr (insertSorted le) []

/-- The total order used to sort homogeneous group keys (matches pandas
for all-numeric or all-string keys; mixed-type key columns are outside
the modelled fragment). -/
def cellLe : Cell → Cell → Bool
  | .num a, .num b => a ≤ b
  | .num _, _ => true
  | .str a, .str b => a ≤ b
  | .str _, .num _ => false
  | .str _, .null => true
  | .null, _ => true

def cellPairLe : Cell × Cell → Cell × Cell → Bool
  | (a1, a2), (b1, b2) =>
    if a1 = b1 then cellLe a2 b2 else cellLe a1 b1

/-- `series.value_counts()`: distinct non-null values with their counts,
sorted by count descending (stable). -/
def valueCounts (cells : List Cell) : List (Cell × Nat) :=
  let nonnull := cells.filter (fun c => c ≠ .null)
  let ks := dedupFirst nonnull
  let counted := ks.map (fun k => (k, nonnull.count k))
  sortByLe (fun a b => Nat.ble b.2 a.2) counted

/-- `groupby(x).size()`: distinct non-null keys, ascending, with group
sizes. -/
def groupSizes (cells : List Cell) : List (Cell × Nat) :=
  let nonnull := cells.filter (fun c => c ≠ .null)
  let ks := sortByLe cellLe (dedupFirst nonnull)
  ks.map (fun k => (k, nonnull.count k))

/-- Reduction of one group's y-cells by the requested aggregation
function, per pandas `SeriesGroupBy.aggregate`: numeric dtypes skip NaN
(`sum` of none is 0, `mean`/`min`/`max` of none is NaN); object dtype
works when the non-null values are homogeneous (all-string `sum`
concatenates, `min`/`max` take the lexicographic extremum, `mean`
raises), and raises on mixed content. -/
def aggReduceNums (func : String) (vs : List ℚ) : Cell :=
  if func = "sum" then .num (vs.foldl (· + ·) 0)
  else
    match vs with
    | [] => .null
    | w :: rest =>
      if func = "mean" then
        .num ((vs.foldl (· + ·) 0) / vs.length)
      else if func = "min" then .num (rest.foldl min w)
      else .num (rest.foldl max w)

def aggReduce (func : String) (dt : DType) (cells : List Cell) :
    Except String Cell :=
  if dt.isNumeric then
    .ok (aggReduceNums func (cells.filterMap cellNum))
  else
    let nonnull := cells.filter (fun c => c ≠ .null)
    if nonnull.all (fun c => (cellNum c).isSome) then
      .ok (aggReduceNums func (cells.filterMap cellNum))
    else if nonnull.all (fun c => match c with | .str _ => true | _ => false) then
      let ss : List String := nonnull.filterMap (fun c =>
        match c with
        | .str s => some s
        | _ => none)
      if func = "sum" then
        match ss with
        | [] => .ok (.num 0)
        | _ => .ok (.str (ss.foldl (· ++ ·) ""))
      else if func = "mean" then .error "TypeError: mean of strings"
      else
        match ss with
        | [] => .ok .null
        | w :: rest =>
          if func = "min" then .ok (.str (rest.foldl min w))
          else .ok (.str (rest.foldl max w))
    else .error "TypeError: mixed types"

/-- Embedding of `ChartGenerator._apply_aggregation`: group by `x_axis`
(and `color_by` when given and present), reduce `y_axis` per group —
`count` via `grouped.size()` (group cardinality regardless of the y
values), the rest via `aggregate(func)`.  Group keys drop rows with a
null key and come out ascending (`reset_index` of the sorted groupby). -/
def _apply_aggregation (df : DF) (agg : String) (x y : String)
    (color : Option String) : Except String DF := do
  let aggMap : List (String × String) :=
    [("sum", "sum"), ("mean", "mean"), ("count", "count"),
     ("min", "min"), ("max", "max")]
  match assocLookup agg aggMap with
  | none => .error "Unsupported aggregation"
  | some func =>
    if ¬ df.names.contains x then .error "X-axis column not found"
    else if ¬ df.names.contains y then .error "Y-axis column not found"
    else
      let xcol := (df.findCol x).getD ⟨.dObj, []⟩
      let ycol := (df.findCol y).getD ⟨.dObj, []⟩
      let idx := List.range df.nrows
      match color with
      | some c =>
        if df.names.contains c then
          let ccol := (df.findCol c).getD ⟨.dObj, []⟩
          let okRows := idx.filter (fun i =>
            df.cellAt x i ≠ .null ∧ df.cellAt c i ≠ .null)
          let keys := sortByLe cellPairLe
            (dedupFirst (okRows.map (fun i => (df.cellAt x i, df.cellAt c i))))
          let groupRows := fun (k : Cell × Cell) =>
            okRows.filter (fun i => (df.cellAt x i, df.cellAt c i) = k)
          if func = "count" then
            .ok { cols := [
              (x, { dtype := xcol.dtype, cells := keys.map Prod.fst }),
              (c, { dtype := ccol.dtype, cells := keys.map Prod.snd }),
              (y, { dtype := .dInt, cells := keys.map (fun k =>
                      .num ((groupRows k).length)) })] }
          else do
            let ycells ← keys.mapM (fun k =>
              aggReduce func ycol.dtype ((groupRows k).map (df.cellAt y)))
            .ok { cols := [
              (x, { dtype := xcol.dtype, cells := keys.map Prod.fst }),
              (c, { dtype := ccol.dtype, cells := keys.map Prod.snd }),
              (y, { dtype := ycol.dtype, cells := ycells })] }
        else
          aggSingle df func x y xcol ycol idx
      | none =>
        aggSingle df func x y xcol ycol idx
where
  /-- The `groupby(x_axis)[y_axis]` branch (no colour key). -/
  aggSingle (df : DF) (func x y : String) (xcol ycol : Col)
      (idx : List Nat) : Except String DF := do
    let okRows := idx.filter (fun i => df.cellAt x i ≠ .null)
    let keys := sortByLe cellLe (dedupFirst (okRows.map (df.cellAt x)))
    let groupRows := fun (k : Cell) => okRows.filter (fun i => df.cellAt x i = k)
    if func = "count" then
      .ok { cols := [
        (x, { dtype := xcol.dtype, cells := keys }),
        (y, { dtype := .dInt, cells := keys.map (fun k =>
                .num ((groupRows k).length)) })] }
    else do
      let ycells ← keys.mapM (fun k =>
        aggReduce func ycol.dtype ((groupRows k).map (df.cellAt y)))
      .ok { cols := [
        (x, { dtype := xcol.dtype, cells := keys }),
        (y, { dtype := ycol.dtype, cells := ycells })] }

/-- The figure-level outcome of each chart builder: the frame(s) and
column roles handed to the plotting library (visual attributes — titles,
colorscales, nbins value aside — are not modelled). -/
inductive Fig where
  | barXY (plotDf : DF) (x y : String) (color : Option String)
  | barCount (counts : List (Cell × Nat)) (x : String)
  | lineFig (plotDf : DF) (x y : String) (color : Option String)
  | scatterFig (plotDf : DF) (x y : String) (color : Option String)
  | pieFig (data : List (Cell × Nat)) (x : String)
  | heatmapFig (names : List String) (diag : List (Option ℚ))
  | areaFig (plotDf : DF) (x y : String)
  | histFig (plotDf : DF) (x : String) (nbins : Nat)
  | boxFig (plotDf : DF) (x : Option String) (y : String)
deriving DecidableEq, Repr

instance exceptDecEq {ε α : Type} [DecidableEq ε] [DecidableEq α] :
    DecidableEq (Except ε α) := fun x y =>
  match x, y with
  | .ok a, .ok b =>
    if h : a = b then isTrue (by rw [h])
    else isFalse (by intro hc; cases hc; exact h rfl)
  | .error e, .error f =>
    if h : e = f then isTrue (by rw [h])
    else isFalse (by intro hc; cases hc; exact h rfl)
  | .ok _, .error _ => isFalse (by intro hc; cases hc)
  | .error _, .ok _ => isFalse (by intro hc; cases hc)

/-- `color=color_by if color_by and color_by in plot_df.columns else None`. -/
def colorArg (color : Option String) (plotDf : DF) : Option String :=
  match color with
  | some c => if plotDf.names.contains c then some c else none
  | none => none

/-- Embedding of `_create_bar_chart`. -/
def _create_bar_chart (df : DF) (spec : SpecDict) : Except String Fig :=
  match spec.x_axis.getStr with
  | none => .error "Bar chart requires x_axis"
  | some x =>
    match spec.y_axis.getStr with
    | some y =>
      match _prepare_data df [x, y] false with
      | .error e => .error ("Error creating bar chart: " ++ e)
      | .ok plotDf =>
        .ok (.barXY plotDf x y (colorArg spec.color_by.getStr plotDf))
    | none =>
      match _prepare_data df [x] false with
      | .error e => .error ("Error creating bar chart: " ++ e)
      | .ok plotDf =>
        .ok (.barCount (valueCounts (((plotDf.findCol x).getD ⟨.dObj, []⟩).cells)) x)

/-- Embedding of `_create_line_chart`. -/
def _create_line_chart (df : DF) (spec : SpecDict) : Except String Fig :=
  match spec.x_axis.getStr, spec.y_axis.getStr with
  | some x, some y =>
    let cols_needed := [x, y] ++ (match spec.color_by.getStr with
                                  | some c => [c]
                                  | none => [])
    match _prepare_data df cols_needed false with
    | .error e => .error ("Error creating line chart: " ++ e)
    | .ok plotDf =>
      .ok (.lineFig plotDf x y (colorArg spec.color_by.getStr plotDf))
  | _, _ => .error "Line chart requires both x_axis and y_axis"

/-- Embedding of `_create_scatter_chart`. -/
def _create_scatter_chart (df : DF) (spec : SpecDict) : Except String Fig :=
  match spec.x_axis.getStr, spec.y_axis.getStr with
  | some x, some y =>
    let cols_needed := [x, y] ++ (match spec.color_by.getStr with
                                  | some c => [c]
                                  | none => [])
    match _prepare_data df cols_needed false with
    | .error e => .error ("Error creating scatter chart: " ++ e)
    | .ok plotDf =>
      .ok (.scatterFig plotDf x y (colorArg spec.color_by.getStr plotDf))
  | _, _ => .error "Scatter chart requires both x_axis and y_axis"

/-- Embedding of `_create_pie_chart`: slice sizes are the per-category
group sizes of the x column. -/
def _create_pie_chart (df : DF) (spec : SpecDict) : Except String Fig :=
  match spec.x_axis.getStr with
  | none => .error "Pie chart requires x_axis"
  | some x =>
    match _prepare_data df [x] false with
    | .error e => .error ("Error creating pie chart: " ++ e)
    | .ok plotDf =>
      .ok (.pieFig (groupSizes (((plotDf.findCol x).getD ⟨.dObj, []⟩).cells)) x)

/-- The diagonal of `numeric_df.corr()` under exact-real semantics of
pandas `nancorr`: `cov(x,x)/(sqrt(var x)*sqrt(var x))` is 1 when the
column has at least two non-null observations that are not all equal,
and NaN (divisor 0, here `none`) otherwise — including for constant
columns. -/
def corrDiag (c : Col) : Option ℚ :=
  match c.cells.filterMap cellNum with
  | [] => none
  | w :: rest =>
    if rest.isEmpty then none
    else if rest.all (fun u => u = w) then none
    else some 1

/-- Embedding of `_create_heatmap`: numeric-only preparation over all
columns, at least two numeric columns required, then the correlation
matrix (its diagonal is what the claims inspect). -/
def _create_heatmap (df : DF) (_spec : SpecDict) : Except String Fig :=
  match _prepare_data df df.names true with
  | .error e => .error ("Error creating heatmap: " ++ e)
  | .ok nd =>
    if nd.cols.length < 2 then
      .error "Error creating heatmap: Heatmap requires at least 2 numeric columns"
    else
      .ok (.heatmapFig nd.names (nd.cols.map (fun p => corrDiag p.2)))

/-- Embedding of `_create_area_chart`. -/
def _create_area_chart (df : DF) (spec : SpecDict) : Except String Fig :=
  match spec.x_axis.getStr, spec.y_axis.getStr with
  | some x, some y =>
    match _prepare_data df [x, y] false with
    | .error e => .error ("Error creating area chart: " ++ e)
    | .ok plotDf => .ok (.areaFig plotDf x y)
  | _, _ => .error "Area chart requires both x_axis and y_axis"

/-- Embedding of `_create_histogram`: prepare only the x column, coerce
an object-dtype column via `_ensure_numeric` (which RAISES when nothing
is convertible), and only then — for non-object non-numeric dtypes —
look for a fallback numeric column *within the single-column `plot_df`*,
where none other can exist.  Fixed 20 bins. -/
def _create_histogram (df : DF) (spec : SpecDict) : Except String Fig :=
  match spec.x_axis.getStr with
  | none => .error "Histogram requires x_axis"
  | some x =>
    match _prepare_data df [x] false with
    | .error e => .error ("Error creating histogram: " ++ e)
    | .ok plotDf =>
      let step2 : Except String DF :=
        match plotDf.findCol x with
        | some col =>
          if col.dtype = .dObj then _ensure_numeric plotDf x
          else .ok plotDf
        | none => .error "KeyError"
      match step2 with
      | .error e => .error ("Error creating histogram: " ++ e)
      | .ok pdf2 =>
        match pdf2.findCol x with
        | none => .error "Error creating histogram: KeyError"
        | some col2 =>
          if col2.dtype.isNumeric then .ok (.histFig pdf2 x 20)
          else
            match pdf2.selectNumeric.names.head? with
            | some nc => .ok (.histFig pdf2 nc 20)
            | none =>
              .error "Error creating histogram: column is not numeric and no numeric columns found in data"

/-- Embedding of `_create_box_chart` (its category axis is read from
`color_by`). -/
def _create_box_chart (df : DF) (spec : SpecDict) : Except String Fig :=
  let x := spec.color_by.getStr
  match spec.y_axis.getStr with
  | none => .error "Box chart requires y_axis"
  | some y =>
    let cols_needed := [y] ++ (match x with
                               | some xv => [xv]
                               | none => [])
    match _prepare_data df cols_needed false with
    | .error e => .error ("Error creating box chart: " ++ e)
    | .ok plotDf =>
      .ok (.boxFig plotDf (colorArg x plotDf) y)

/-- The supported chart-type keys of `self.chart_functions`. -/
def supportedTypes : List String :=
  ["bar", "line", "scatter", "pie", "heatmap", "area", "histogram", "box"]

/-- `chart_spec.get('chart_type', '').lower()` — crashes (caught by the
outer except) when `chart_type` is present but `None`. -/
def chartTypeOf (spec : SpecDict) : Except String String :=
  match spec.chart_type with
  | .null => .error "NoneType has no attribute lower"
  | .absent => .ok ""
  | .val s => .ok (pyLower s)

/-- `_get_columns_for_chart`: the truthy `x_axis`, `y_axis`, `color_by`
values, in that order. -/
def _get_columns_for_chart (spec : SpecDict) : List String :=
  (match spec.x_axis.getStr with
   | some x => [x]
   | none => []) ++
  (match spec.y_axis.getStr with
   | some y => [y]
   | none => []) ++
  (match spec.color_by.getStr with
   | some c => [c]
   | none => [])

/-- The filter loop of `generate_chart`: only `==` filters are applied;
clauses with a falsy or unknown column are skipped, and any other
operator is silently ignored. -/
def applyEqFilters (df : DF) (fs : List FilterDict) : DF :=
  fs.foldl (fun d f =>
    match f.column with
    | none => d
    | some colName =>
      if colName = "" then d
      else if ¬ d.names.contains colName then d
      else
        match f.operator with
        | some "==" =>
          let v : Option PyVal := (f.value).getD none
          d.filterRows (fun i =>
            match v with
            | some pv => cellEqPy (d.cellAt colName i) pv
            | none => false)
        | _ => d) df

/-- The dataframe `generate_chart` hands to the chart builder: filters,
then aggregation with silent fallback to the unaggregated frame on any
aggregation failure, then selection of the spec's columns. -/
def chartData (df : DF) (spec : SpecDict) : Except String DF :=
  let filtered :=
    match spec.filters with
    | some fs => applyEqFilters df fs
    | none => df
  if filtered.isEmpty then .error "No data matches the specified filters"
  else
    let agg : Option String :=
      match spec.aggregation with
      | .absent => some "none"
      | .null => none
      | .val s => some s
    let aggActive : Bool :=
      (match agg with
       | some s => s ≠ "" && s ≠ "none"
       | none => false) &&
      spec.y_axis.truthy && spec.x_axis.truthy
    let df2 :=
      if aggActive then
        match _apply_aggregation filtered (agg.getD "")
            ((spec.x_axis.getStr).getD "") ((spec.y_axis.getStr).getD "")
            spec.color_by.getStr with
        | .ok d => d
        | .error _ => filtered
      else filtered
    let colsNeeded := _get_columns_for_chart spec
    if colsNeeded.isEmpty then .ok df2
    else _prepare_data df2 colsNeeded false

/-- Dispatch through `self.chart_functions`. -/
def buildChart (ct : String) (df : DF) (spec : SpecDict) : Except String Fig :=
  if ct = "bar" then _create_bar_chart df spec
  else if ct = "line" then _create_line_chart df spec
  else if ct = "scatter" then _create_scatter_chart df spec
  else if ct = "pie" then _create_pie_chart df spec
  else if ct = "heatmap" then _create_heatmap df spec
  else if ct = "area" then _create_area_chart df spec
  else if ct = "histogram" then _create_histogram df spec
  else if ct = "box" then _create_box_chart df spec
  else .error "Unsupported chart type"

/-- Embedding of `ChartGenerator.generate_chart` (the returned value
abstracts the rendered figure; `_apply_customizations` only mutates
visual attributes of the figure and is not modelled). -/
def generate_chart (df : DF) (spec : SpecDict) : Except String Fig :=
  match chartTypeOf spec with
  | .error e => .error ("Error generating chart: " ++ e)
  | .ok ct =>
    if ¬ supportedTypes.contains ct then
      .error "Error generating chart: Unsupported chart type"
    else if df.isEmpty then
      .error "Error generating chart: Input dataframe is empty"
    else
      match chartData df spec with
      | .error e => .error ("Error generating chart: " ++ e)
      | .ok d =>
        match buildChart ct d spec with
        | .error e => .error ("Error generating chart: " ++ e)
        | .ok fig => .ok fig

/-! ### Claim C5: the histogram builder -/

theorem findCol_contains {df : DF} {n : String} {col : Col}
    (h : df.findCol n = some col) : df.names.contains n = true := by
  unfold DF.findCol at h
  cases hf : df.cols.find? (fun p => p.1 = n) with
  | none => rw [hf] at h; cases h
  | some p =>
    have hmem := List.mem_of_find?_eq_some hf
    have hp := List.find?_some hf
    simp only [decide_eq_true_eq] at hp
    have hn : n ∈ df.names := by
      rw [← hp]
      exact List.mem_map_of_mem Prod.fst hmem
    simp [hn]

theorem find?_map_name_list (cols : List (String × Col)) (n : String)
    (f : Col → Col) :
    (cols.map (fun p => (p.1, f p.2))).find? (fun p => p.1 = n) =
      (cols.find? (fun p => p.1 = n)).map (fun p => (p.1, f p.2)) := by
  induction cols with
  | nil => rfl
  | cons p rest ih =>
    by_cases hp : p.1 = n
    · rw [List.map_cons, List.find?_cons_of_pos _ (by simpa using hp),
        List.find?_cons_of_pos _ (by simpa using hp)]
      rfl
    · rw [List.map_cons, List.find?_cons_of_neg _ (by simpa using hp),
        List.find?_cons_of_neg _ (by simpa using hp)]
      exact ih

theorem filterRows_findCol (df : DF) (k : Nat → Bool) (n : String) :
    (df.filterRows k).findCol n =
      (df.findCol n).map (fun c => ⟨c.dtype, pickRowsAux k 0 c.cells⟩) := by
  unfold DF.filterRows DF.findCol
  rw [find?_map_name_list df.cols n
    (fun c => ⟨c.dtype, pickRowsAux k 0 c.cells⟩)]
  cases df.cols.find? (fun p => p.1 = n) <;> rfl

theorem find?_setCol_list (cols : List (String × Col)) (n : String) (c : Col)
    (h : ∃ p ∈ cols, p.1 = n) :
    (cols.map (fun p => if p.1 = n then (n, c) else p)).find?
      (fun p => p.1 = n) = some (n, c) := by
  induction cols with
  | nil => simp at h
  | cons p rest ih =>
    by_cases hp : p.1 = n
    · rw [List.map_cons, if_pos hp,
        List.find?_cons_of_pos _ (by simp)]
    · have h3 : ∃ q ∈ rest, q.1 = n := by
        obtain ⟨q, hq, hqn⟩ := h
        rcases List.mem_cons.mp hq with rfl | hq2
        · exact absurd hqn hp
        · exact ⟨q, hq2, hqn⟩
      rw [List.map_cons, if_neg hp,
        List.find?_cons_of_neg _ (by simpa using hp)]
      exact ih h3

theorem setCol_findCol_self {df : DF} {n : String} (c : Col)
    (h : df.names.contains n = true) : (df.setCol n c).findCol n = some c := by
  unfold DF.setCol DF.findCol
  have h2 : ∃ p ∈ df.cols, p.1 = n := by
    have hn : n ∈ df.names := by simpa using h
    obtain ⟨p, hp, hpn⟩ := List.mem_map.mp hn
    exact ⟨p, hp, hpn⟩
  rw [find?_setCol_list df.cols n c h2]
  rfl

theorem ensure_numeric_ok_numeric {df : DF} {x : String} {d : DF}
    (h : _ensure_numeric df x = .ok d) :
    ∃ col2, d.findCol x = some col2 ∧ col2.dtype.isNumeric = true := by
  unfold _ensure_numeric at h
  by_cases hc : df.names.contains x = true
  · have hx : x ∈ df.names := by simpa using hc
    rw [if_neg (by simp [hx])] at h
    cases hf : df.findCol x with
    | none => rw [hf] at h; cases h
    | some col =>
      rw [hf] at h
      dsimp only at h
      by_cases hdt : col.dtype = .dObj
      · rw [if_neg (by simp [hdt])] at h
        set coerced := col.cells.map toNumericCell with hco
        set df2 := df.setCol x ⟨.dFloat, coerced⟩ with hdf2
        set df3 := df2.filterRows (fun i => coerced.getD i .null ≠ .null) with hdf3
        by_cases hemp : df3.isEmpty = true
        · rw [if_pos hemp] at h; cases h
        · rw [if_neg hemp] at h
          simp only [Except.ok.injEq] at h
          subst h
          refine ⟨⟨.dFloat, pickRowsAux (fun i => coerced.getD i .null ≠ .null) 0 coerced⟩, ?_, rfl⟩
          rw [hdf3, filterRows_findCol, hdf2, setCol_findCol_self _ hc]
          rfl
      · rw [if_pos (by simpa using hdt)] at h
        simp only [Except.ok.injEq] at h
        subst h
        refine ⟨col, hf, ?_⟩
        cases hdt2 : col.dtype with
        | dInt => rfl
        | dFloat => rfl
        | dObj => exact absurd hdt2 hdt
  · rw [if_pos (by simpa using hc)] at h
    cases h

theorem pickRowsAux_all_false {keep : Nat → Bool}
    (h : ∀ i, keep i = false) :
    ∀ (n : Nat) (cells : List Cell), pickRowsAux keep n cells = [] := by
  intro n cells
  induction cells generalizing n with
  | nil => rfl
  | cons c cs ih =>
    unfold pickRowsAux
    rw [h n]
    simp only [Bool.false_eq_true, if_false]
    exact ih (n + 1)

theorem foldr_max_zero_of_all_nil :
    ∀ (l : List (String × Col)), (∀ p ∈ l, p.2.cells = []) →
      (l.map (fun p => p.2.cells.length)).foldr max 0 = 0 := by
  intro l
  induction l with
  | nil => intro _; rfl
  | cons p rest ih =>
    intro h
    simp only [List.map_cons, List.foldr_cons]
    rw [h p (List.mem_cons_self p rest),
      ih (fun q hq => h q (List.mem_cons_of_mem p hq))]
    simp

theorem nrows_zero_of_all_nil {df : DF}
    (h : ∀ p ∈ df.cols, p.2.cells = []) : df.nrows = 0 :=
  foldr_max_zero_of_all_nil df.cols h

/-- C5 counterexample to the claim as stated: a wholly unconvertible text
column makes `_ensure_numeric` raise (all coerced rows are NaN and get
dropped), so the histogram fails even though the numeric column `n` is
present in the table — the claimed fallback never happens. -/
theorem claim5_counterexample :
    (_create_histogram
      ⟨[("t", ⟨.dObj, [.str "x", .str "y"]⟩),
        ("n", ⟨.dInt, [.num 1, .num 2]⟩)]⟩
      { chart_type := .val "histogram", x_axis := .val "t" }).isOk = false := by
  rfl

/-- C5 (amended): the histogram builder coerces an object-dtype x column
by parsing strings and dropping unparseable rows (the spec's
"1","2","x","4" example succeeds with 3 remaining values); but when the
column is wholly unconvertible it ALWAYS fails — `_ensure_numeric`
raises before the fallback is reached — and a successful histogram is
always plotted on the requested column, never on a fallback column
(`plot_df` contains only the x column, so no other numeric column can be
found). -/
theorem claim5_histogram (df : DF) (spec : SpecDict) :
    (∃ q1 q2 q3 : ℚ,
      _create_histogram
        ⟨[("vals", ⟨.dObj, [.str "1", .str "2", .str "x", .str "4"]⟩)]⟩
        { chart_type := .val "histogram", x_axis := .val "vals" } =
        .ok (.histFig ⟨[("vals", ⟨.dFloat, [.num q1, .num q2, .num q3]⟩)]⟩
          "vals" 20) ∧ q1 = 1 ∧ q2 = 2 ∧ q3 = 4) ∧
    (∀ x fig, spec.x_axis.getStr = some x →
      _create_histogram df spec = .ok fig →
      ∃ pdf, fig = .histFig pdf x 20) ∧
    (∀ x plotDf col, spec.x_axis.getStr = some x →
      _prepare_data df [x] false = .ok plotDf →
      plotDf.findCol x = some col →
      col.dtype = .dObj →
      (∀ c ∈ col.cells, toNumericCell c = .null) →
      (_create_histogram df spec).isOk = false) := by
  refine ⟨⟨_, _, _, rfl, ?_, ?_, ?_⟩, ?_, ?_⟩
  · norm_num [pyFloatParse, pyStripList]
    decide
  · norm_num [pyFloatParse, pyStripList]
    rw [show List.foldl (fun a c => a * 10 + (c.toNat - 48)) 0
      (List.takeWhile (fun c => c.isDigit) ['2']) = 2 from by decide]
    norm_num
  · norm_num [pyFloatParse, pyStripList]
    rw [show List.foldl (fun a c => a * 10 + (c.toNat - 48)) 0
      (List.takeWhile (fun c => c.isDigit) ['4']) = 4 from by decide]
    norm_num
  · intro x fig hx h
    unfold _create_histogram at h
    rw [hx] at h
    dsimp only at h
    cases hprep : _prepare_data df [x] false with
    | error e => simp only [hprep] at h; cases h
    | ok plotDf =>
      simp only [hprep] at h
      cases hf : plotDf.findCol x with
      | none => simp only [hf] at h; cases h
      | some col =>
        simp only [hf] at h
        by_cases hdt : col.dtype = .dObj
        · rw [if_pos hdt] at h
          cases hens : _ensure_numeric plotDf x with
          | error e => simp only [hens] at h; cases h
          | ok pdf2 =>
            simp only [hens] at h
            obtain ⟨col2, hcol2, hnum⟩ := ensure_numeric_ok_numeric hens
            simp only [hcol2] at h
            rw [if_pos hnum] at h
            simp only [Except.ok.injEq] at h
            exact ⟨pdf2, h.symm⟩
        · rw [if_neg hdt] at h
          simp only [hf] at h
          have hnum : col.dtype.isNumeric = true := by
            cases hdt2 : col.dtype with
            | dInt => rfl
            | dFloat => rfl
            | dObj => exact absurd hdt2 hdt
          rw [if_pos hnum] at h
          simp only [Except.ok.injEq] at h
          exact ⟨plotDf, h.symm⟩
  · intro x plotDf col hx hprep hf hdt hall
    unfold _create_histogram
    rw [hx]
    dsimp only
    rw [hprep]
    dsimp only
    rw [hf]
    dsimp only
    rw [if_pos hdt]
    have hkeep : ∀ i,
        decide ((col.cells.map toNumericCell).getD i .null ≠ .null) = false := by
      intro i
      rw [List.getD_eq_getElem?_getD]
      cases hi : (col.cells.map toNumericCell)[i]? with
      | none => simp
      | some c =>
        rw [List.getElem?_map] at hi
        cases hic : col.cells[i]? with
        | none => rw [hic] at hi; cases hi
        | some c0 =>
          rw [hic] at hi
          simp only [Option.map] at hi
          rw [Option.some_inj] at hi
          have hmem : c0 ∈ col.cells := by
            have := List.getElem?_eq_some_iff.mp hic
            obtain ⟨hlt, hget⟩ := this
            rw [← hget]
            exact List.getElem_mem hlt
          rw [← hi, hall c0 hmem]
          simp
    have hens : ∃ e, _ensure_numeric plotDf x = .error e := by
      have hxmem : x ∈ plotDf.names := by
        simpa using findCol_contains hf
      unfold _ensure_numeric
      rw [if_neg (by simp [hxmem])]
      rw [hf]
      dsimp only
      rw [if_neg (by simp [hdt])]
      have hnil : ∀ p ∈ ((plotDf.setCol x
            ⟨.dFloat, col.cells.map toNumericCell⟩).filterRows
            (fun i => (col.cells.map toNumericCell).getD i .null ≠ .null)).cols,
          p.2.cells = [] := by
        intro p hp
        unfold DF.filterRows at hp
        obtain ⟨q, _, rfl⟩ := List.mem_map.mp hp
        exact pickRowsAux_all_false hkeep 0 q.2.cells
      have hempty : ((plotDf.setCol x
            ⟨.dFloat, col.cells.map toNumericCell⟩).filterRows
            (fun i => (col.cells.map toNumericCell).getD i .null ≠ .null)).isEmpty = true := by
        unfold DF.isEmpty
        rw [nrows_zero_of_all_nil hnil]
        simp
      rw [if_pos hempty]
      exact ⟨_, rfl⟩
    obtain ⟨e, he⟩ := hens
    rw [he]
    rfl

/-- C5 witness: a successful histogram on a numeric column is plotted on
the requested column itself. -/
theorem claim5_witness :
    ∃ pdf, (Fig.histFig (⟨[("vals", ⟨.dInt, [.num 1]⟩)]⟩ : DF) "vals" 20) =
      .histFig pdf "vals" 20 :=
  (claim5_histogram ⟨[("vals", ⟨.dInt, [.num 1]⟩)]⟩
    { chart_type := .val "histogram", x_axis := .val "vals" }).2.1
    "vals" _ (by rfl) (by rfl)

/-! ### Claim C6: the heatmap builder -/

/-- The columns that survive the heatmap's preparation: numeric dtype and
at least one non-null cell (`dropna(axis=1, how='all')` then
`select_dtypes(['number'])`). -/
def numericGoodCols (df : DF) : List (String × Col) :=
  df.cols.filter (fun p =>
    p.2.dtype.isNumeric && p.2.cells.any (fun c => c ≠ .null))

/-- The row-keep predicate of the heatmap's `dropna(how='all')` step. -/
def heatKeep (df : DF) : Nat → Bool :=
  fun i => (df.cols.filter (fun p => p.2.cells.any (fun c => c ≠ .null))).any
    (fun p => p.2.cells.getD i .null ≠ .null)

theorem filter_contains_self (l : List String) :
    l.filter (fun c => l.contains c) = l := by
  apply List.filter_eq_self.mpr
  intro a ha
  simp [ha]

theorem selectCols_names_self_list :
    ∀ (cols : List (String × Col)), (cols.map Prod.fst).Nodup →
      ((cols.map Prod.fst).filterMap (fun n =>
        (cols.find? (fun p => p.1 = n)).map (fun p => (n, p.2)))) = cols := by
  intro cols
  induction cols with
  | nil => intro _; rfl
  | cons p0 rest ih =>
    intro hnd
    simp only [List.map_cons, List.filterMap_cons]
    rw [List.find?_cons_of_pos _ (by simp)]
    simp only [Option.map_some']
    have hnotin : p0.1 ∉ rest.map Prod.fst := (List.nodup_cons.mp hnd).1
    have hcongr : ∀ n ∈ rest.map Prod.fst,
        ((p0 :: rest).find? (fun p => p.1 = n)).map (fun p => (n, p.2)) =
        (rest.find? (fun p => p.1 = n)).map (fun p => (n, p.2)) := by
      intro n hn
      have hne : ¬(p0.1 = n) := by
        intro hEq
        exact hnotin (hEq ▸ hn)
      rw [List.find?_cons_of_neg _ (by simpa using hne)]
    rw [List.filterMap_congr hcongr, ih (List.nodup_cons.mp hnd).2]

theorem selectCols_names_self {df : DF} (h : df.names.Nodup) :
    df.selectCols df.names = df := by
  unfold DF.selectCols DF.names
  have := selectCols_names_self_list df.cols (by simpa [DF.names] using h)
  rw [this]

theorem le_foldr_max : ∀ (l : List Nat), ∀ x ∈ l, x ≤ l.foldr max 0 := by
  intro l
  induction l with
  | nil => intro x hx; cases hx
  | cons a rest ih =>
    intro x hx
    rcases List.mem_cons.mp hx with rfl | hx2
    · exact le_max_iff.mpr (Or.inl (le_refl x))
    · exact le_trans (ih x hx2) (le_max_iff.mpr (Or.inr (le_refl _)))

theorem pickRowsAux_ne_nil {keep : Nat → Bool} :
    ∀ (cells : List Cell) (n j : Nat), j < cells.length →
      keep (n + j) = true → pickRowsAux keep n cells ≠ [] := by
  intro cells
  induction cells with
  | nil => intro n j hj _; cases hj
  | cons c cs ih =>
    intro n j hj hk
    unfold pickRowsAux
    by_cases hkn : keep n
    · simp [hkn]
    · rw [if_neg hkn]
      cases j with
      | zero =>
        rw [Nat.add_zero] at hk
        exact absurd hk hkn
      | succ j2 =>
        exact ih (n + 1) j2 (by simpa using Nat.lt_of_succ_lt_succ hj)
          (by rw [show n + 1 + j2 = n + (j2 + 1) by omega]; exact hk)

theorem filterMap_cellNum_pickRows {keep : Nat → Bool} :
    ∀ (cells : List Cell) (n : Nat),
      (∀ j, keep (n + j) = false → cells.getD j .null = .null) →
      (pickRowsAux keep n cells).filterMap cellNum =
        cells.filterMap cellNum := by
  intro cells
  induction cells with
  | nil => intro n _; rfl
  | cons c cs ih =>
    intro n hp
    unfold pickRowsAux
    by_cases hkn : keep n
    · rw [if_pos hkn]
      rw [List.filterMap_cons, List.filterMap_cons]
      rw [ih (n + 1) (fun j hj => by
        have := hp (j + 1) (by rw [show n + (j + 1) = n + 1 + j by omega]; exact hj)
        simpa using this)]
    · rw [if_neg hkn]
      have hc : c = .null := by
        have := hp 0 (by simpa using hkn)
        simpa using this
      rw [List.filterMap_cons]
      rw [hc]
      simp only [cellNum]
      exact ih (n + 1) (fun j hj => by
        have := hp (j + 1) (by rw [show n + (j + 1) = n + 1 + j by omega]; exact hj)
        simpa using this)

theorem mem_filterMap_cellNum {cells : List Cell} {q : ℚ} :
    q ∈ cells.filterMap cellNum ↔ Cell.num q ∈ cells := by
  rw [List.mem_filterMap]
  constructor
  · rintro ⟨c, hc, hq⟩
    cases c with
    | num w => simp only [cellNum, Option.some_inj] at hq; exact hq ▸ hc
    | str s => simp [cellNum] at hq
    | null => simp [cellNum] at hq
  · intro h
    exact ⟨.num q, h, rfl⟩

theorem prepare_d4_eq (df : DF) (h : df.names.Nodup) :
    (((df.selectCols df.names).dropAllNullCols).dropAllNullRows).selectNumeric =
      ⟨(numericGoodCols df).map (fun p =>
        (p.1, ⟨p.2.dtype, pickRowsAux (heatKeep df) 0 p.2.cells⟩))⟩ := by
  rw [selectCols_names_self h]
  unfold DF.selectNumeric DF.dropAllNullRows DF.filterRows DF.dropAllNullCols
    numericGoodCols heatKeep
  refine congrArg DF.mk ?_
  rw [List.filter_map, List.filter_filter]
  rfl

theorem prepare_heatmap_ok (df : DF) (h : df.names.Nodup)
    (hng : numericGoodCols df ≠ []) :
    _prepare_data df df.names true =
      .ok ⟨(numericGoodCols df).map (fun p =>
        (p.1, ⟨p.2.dtype, pickRowsAux (heatKeep df) 0 p.2.cells⟩))⟩ := by
  have hnames : ¬df.names.isEmpty = true := by
    rw [List.isEmpty_iff]
    intro hn
    apply hng
    have hc : df.cols = [] := List.map_eq_nil_iff.mp hn
    unfold numericGoodCols
    rw [hc]
    rfl
  obtain ⟨p0, hp0⟩ := List.exists_mem_of_ne_nil _ hng
  have hp0f := List.mem_filter.mp hp0
  have hany : p0.2.cells.any (fun c => c ≠ .null) = true :=
    ((Bool.and_eq_true _ _).mp hp0f.2).2
  obtain ⟨c0, hc0mem, hc0⟩ := List.any_eq_true.mp hany
  obtain ⟨j, hj, hcj⟩ := List.mem_iff_getElem.mp hc0mem
  have hgetd : p0.2.cells.getD j .null ≠ .null := by
    rw [List.getD_eq_getElem _ _ hj, hcj]
    exact of_decide_eq_true hc0
  have hkeep : heatKeep df j = true := by
    unfold heatKeep
    refine List.any_eq_true.mpr ⟨p0, ?_, decide_eq_true hgetd⟩
    exact List.mem_filter.mpr ⟨hp0f.1, hany⟩
  have hpick : pickRowsAux (heatKeep df) 0 p0.2.cells ≠ [] :=
    pickRowsAux_ne_nil p0.2.cells 0 j hj (by simpa using hkeep)
  have hd4 := prepare_d4_eq df h
  unfold _prepare_data
  rw [filter_contains_self]
  rw [if_neg hnames]
  dsimp only
  simp only [eq_self_iff_true, if_true, Bool.true_and]
  rw [hd4]
  have hcolsne : (numericGoodCols df).map (fun p =>
      (p.1, (⟨p.2.dtype, pickRowsAux (heatKeep df) 0 p.2.cells⟩ : Col))) ≠ [] := by
    simpa [List.map_eq_nil_iff] using hng
  have hnrows : (DF.mk ((numericGoodCols df).map (fun p =>
      (p.1, ⟨p.2.dtype, pickRowsAux (heatKeep df) 0 p.2.cells⟩)))).nrows ≠ 0 := by
    have hmem1 : (pickRowsAux (heatKeep df) 0 p0.2.cells).length ∈
        ((DF.mk ((numericGoodCols df).map (fun p =>
          (p.1, ⟨p.2.dtype, pickRowsAux (heatKeep df) 0 p.2.cells⟩)))).cols.map
            (fun p => p.2.cells.length)) := by
      rw [show (DF.mk ((numericGoodCols df).map (fun p =>
        (p.1, (⟨p.2.dtype, pickRowsAux (heatKeep df) 0 p.2.cells⟩ : Col))))).cols =
        (numericGoodCols df).map (fun p =>
          (p.1, (⟨p.2.dtype, pickRowsAux (heatKeep df) 0 p.2.cells⟩ : Col))) from rfl]
      rw [List.map_map]
      exact List.mem_map.mpr ⟨p0, hp0, rfl⟩
    have hle := le_foldr_max _ _ hmem1
    have hpos : 0 < (pickRowsAux (heatKeep df) 0 p0.2.cells).length :=
      List.length_pos.mpr hpick
    unfold DF.nrows
    omega
  have hempty : (DF.mk ((numericGoodCols df).map (fun p =>
      (p.1, ⟨p.2.dtype, pickRowsAux (heatKeep df) 0 p.2.cells⟩)))).isEmpty = false := by
    unfold DF.isEmpty
    rw [Bool.or_eq_false_iff]
    constructor
    · rw [show (DF.mk ((numericGoodCols df).map (fun p =>
        (p.1, (⟨p.2.dtype, pickRowsAux (heatKeep df) 0 p.2.cells⟩ : Col))))).cols =
        (numericGoodCols df).map (fun p =>
          (p.1, (⟨p.2.dtype, pickRowsAux (heatKeep df) 0 p.2.cells⟩ : Col))) from rfl]
      rw [List.isEmpty_eq_false_iff_exists_mem]
      exact ⟨_, List.mem_map.mpr ⟨p0, hp0, rfl⟩⟩
    · exact decide_eq_false hnrows
  rw [hempty]
  rfl

theorem prepare_heatmap_err (df : DF) (h : df.names.Nodup)
    (hng : numericGoodCols df = []) :
    ∃ e, _prepare_data df df.names true = .error e := by
  unfold _prepare_data
  rw [filter_contains_self]
  by_cases hn : df.names.isEmpty
  · rw [if_pos hn]
    exact ⟨_, rfl⟩
  · rw [if_neg hn]
    dsimp only
    rw [prepare_d4_eq df h, hng]
    exact ⟨_, rfl⟩

theorem corrDiag_eq_one_iff (c : Col) :
    corrDiag c = some 1 ↔
      ∃ a b, Cell.num a ∈ c.cells ∧ Cell.num b ∈ c.cells ∧ a ≠ b := by
  cases hvs : c.cells.filterMap cellNum with
  | nil =>
    have hcd : corrDiag c = none := by unfold corrDiag; rw [hvs]
    rw [hcd]
    constructor
    · intro h; cases h
    · rintro ⟨a, b, ha, hb, hab⟩
      have : a ∈ c.cells.filterMap cellNum := mem_filterMap_cellNum.mpr ha
      rw [hvs] at this
      cases this
  | cons w rest =>
    have hcd : corrDiag c =
        if rest.isEmpty then none
        else if rest.all (fun u => u = w) then none else some 1 := by
      unfold corrDiag; rw [hvs]
    rw [hcd]
    by_cases hre : rest.isEmpty
    · rw [if_pos hre]
      have hrnil : rest = [] := by simpa [List.isEmpty_iff] using hre
      subst hrnil
      constructor
      · intro h; cases h
      · rintro ⟨a, b, ha, hb, hab⟩
        have ha2 : a ∈ [w] := by
          rw [← hvs]; exact mem_filterMap_cellNum.mpr ha
        have hb2 : b ∈ [w] := by
          rw [← hvs]; exact mem_filterMap_cellNum.mpr hb
        rw [List.mem_singleton.mp ha2, List.mem_singleton.mp hb2] at hab
        exact absurd rfl hab
    · rw [if_neg hre]
      by_cases hall : rest.all (fun u => u = w)
      · rw [if_pos hall]
        constructor
        · intro h; cases h
        · rintro ⟨a, b, ha, hb, hab⟩
          have hmem : ∀ q, Cell.num q ∈ c.cells → q = w := by
            intro q hq
            have : q ∈ w :: rest := by
              rw [← hvs]; exact mem_filterMap_cellNum.mpr hq
            rcases List.mem_cons.mp this with rfl | hq2
            · rfl
            · exact of_decide_eq_true (List.all_eq_true.mp hall q hq2)
          rw [hmem a ha, hmem b hb] at hab
          exact absurd rfl hab
      · rw [if_neg hall]
        constructor
        · intro _
          obtain ⟨u, hu, hne⟩ : ∃ u ∈ rest, ¬(u = w) := by
            by_contra hcon
            push_neg at hcon
            exact hall (List.all_eq_true.mpr (fun u hu => decide_eq_true (hcon u hu)))
          refine ⟨w, u, ?_, ?_, fun hEq => hne (hEq ▸ rfl)⟩
          · exact mem_filterMap_cellNum.mp (by rw [hvs]; exact List.mem_cons_self _ _)
          · exact mem_filterMap_cellNum.mp (by rw [hvs]; exact List.mem_cons_of_mem _ hu)
        · intro _; rfl

theorem corrDiag_pick_eq (df : DF) {p : String × Col} (hp : p ∈ numericGoodCols df) :
    corrDiag ⟨p.2.dtype, pickRowsAux (heatKeep df) 0 p.2.cells⟩ = corrDiag p.2 := by
  have hnull : ∀ j, heatKeep df (0 + j) = false → p.2.cells.getD j .null = .null := by
    intro j hj
    by_contra hne
    have htrue : heatKeep df (0 + j) = true := by
      rw [Nat.zero_add]
      unfold heatKeep
      refine List.any_eq_true.mpr ⟨p, List.mem_filter.mpr ⟨?_, ?_⟩, decide_eq_true hne⟩
      · exact (List.mem_filter.mp hp).1
      · exact ((Bool.and_eq_true _ _).mp (List.mem_filter.mp hp).2).2
    rw [htrue] at hj
    cases hj
  unfold corrDiag
  rw [show (⟨p.2.dtype, pickRowsAux (heatKeep df) 0 p.2.cells⟩ : Col).cells =
    pickRowsAux (heatKeep df) 0 p.2.cells from rfl]
  rw [filterMap_cellNum_pickRows p.2.cells 0 hnull]

/-- C6: on a frame with distinct column names, the heatmap builder fails
exactly when fewer than 2 columns are numeric-and-not-all-null; on success the
figure covers exactly those columns, and a diagonal entry equals 1 iff the
column holds two distinct numeric values (a constant numeric column yields a
null diagonal entry, not 1). -/
theorem claim6_heatmap (df : DF) (spec : SpecDict) (h : df.names.Nodup) :
    ((_create_heatmap df spec).isOk = false ↔ (numericGoodCols df).length < 2) ∧
    (∀ fig, _create_heatmap df spec = .ok fig →
      fig = .heatmapFig ((numericGoodCols df).map Prod.fst)
        ((numericGoodCols df).map (fun p => corrDiag p.2)) ∧
      ∀ p ∈ numericGoodCols df,
        (corrDiag p.2 = some 1 ↔
          ∃ a b, Cell.num a ∈ p.2.cells ∧ Cell.num b ∈ p.2.cells ∧ a ≠ b)) := by
  by_cases hngnil : numericGoodCols df = []
  · obtain ⟨e, he⟩ := prepare_heatmap_err df h hngnil
    have hcrt : (_create_heatmap df spec).isOk = false := by
      unfold _create_heatmap
      rw [he]
      rfl
    have herr : ∀ fig, _create_heatmap df spec ≠ .ok fig := by
      intro fig hfig
      unfold _create_heatmap at hfig
      rw [he] at hfig
      cases hfig
    refine ⟨⟨fun _ => ?_, fun _ => hcrt⟩, fun fig hfig => absurd hfig (herr fig)⟩
    rw [hngnil]
    decide
  · have hck : _create_heatmap df spec =
        (if ((numericGoodCols df).map (fun p =>
            (p.1, (⟨p.2.dtype, pickRowsAux (heatKeep df) 0 p.2.cells⟩ : Col)))).length < 2 then
          .error "Error creating heatmap: Heatmap requires at least 2 numeric columns"
        else .ok (.heatmapFig
          (((numericGoodCols df).map (fun p =>
            (p.1, (⟨p.2.dtype, pickRowsAux (heatKeep df) 0 p.2.cells⟩ : Col)))).map Prod.fst)
          (((numericGoodCols df).map (fun p =>
            (p.1, (⟨p.2.dtype, pickRowsAux (heatKeep df) 0 p.2.cells⟩ : Col)))).map
              (fun p => corrDiag p.2)))) := by
      unfold _create_heatmap
      rw [prepare_heatmap_ok df h hngnil]
      rfl
    rw [List.length_map] at hck
    by_cases h2 : (numericGoodCols df).length < 2
    · rw [if_pos h2] at hck
      refine ⟨⟨fun _ => h2, fun _ => by rw [hck]; rfl⟩, fun fig hfig => ?_⟩
      rw [hck] at hfig
      cases hfig
    · rw [if_neg h2] at hck
      constructor
      · rw [hck]
        exact iff_of_false (by simp [Except.isOk, Except.toBool]) h2
      · intro fig hfig
        rw [hck] at hfig
        have hfig2 := (Except.ok.injEq _ _).mp hfig.symm
        constructor
        · rw [hfig2]
          congr 1
          · rw [List.map_map]
            exact List.map_congr_left (fun p _ => rfl)
          · rw [List.map_map]
            exact List.map_congr_left (fun p hp => corrDiag_pick_eq df hp)
        · exact fun p _ => corrDiag_eq_one_iff p.2

/-- C6 counterexample: a frame with a constant numeric column "a" and a
non-constant one "b" renders a heatmap whose diagonal is [null, 1] — the
constant column's diagonal entry is NaN (here `none`), not 1, refuting
"diagonal entries all equal 1". -/
theorem claim6_counterexample :
    _create_heatmap
      ⟨[("a", ⟨.dInt, [.num 1, .num 1]⟩), ("b", ⟨.dInt, [.num 1, .num 2]⟩)]⟩
      { chart_type := PyOpt.val "heatmap" } =
      .ok (.heatmapFig ["a", "b"] [none, some 1]) := by
  rfl

/-- Witness for C6 at a concrete two-numeric-column frame. -/
theorem claim6_witness :
    ((_create_heatmap
        ⟨[("a", ⟨.dInt, [.num 1, .num 2]⟩), ("b", ⟨.dInt, [.num 3, .num 4]⟩)]⟩
        { chart_type := PyOpt.val "heatmap" }).isOk = false ↔
      (numericGoodCols
        ⟨[("a", ⟨.dInt, [.num 1, .num 2]⟩), ("b", ⟨.dInt, [.num 3, .num 4]⟩)]⟩).length < 2) :=
  (claim6_heatmap
    ⟨[("a", ⟨.dInt, [.num 1, .num 2]⟩), ("b", ⟨.dInt, [.num 3, .num 4]⟩)]⟩
    { chart_type := PyOpt.val "heatmap" } (by decide)).1

/-! ### Claim C7: aggregation during rendering -/

/-- The filtered frame `generate_chart` computes before aggregating. -/
def chartFiltered (df : DF) (spec : SpecDict) : DF :=
  match spec.filters with
  | some fs => applyEqFilters df fs
  | none => df

/-- The aggregation-function string `generate_chart` passes on. -/
def chartAggArg (spec : SpecDict) : String :=
  (match spec.aggregation with
   | PyOpt.absent => some "none"
   | PyOpt.null => none
   | PyOpt.val s => some s).getD ""

theorem mem_insertSorted {α : Type} (le : α → α → Bool) (a b : α) :
    ∀ (l : List α), b ∈ insertSorted le a l ↔ b = a ∨ b ∈ l := by
  intro l
  induction l with
  | nil => simp [insertSorted]
  | cons c cs ih =>
    unfold insertSorted
    by_cases h : le a c
    · rw [if_pos h]
      simp [List.mem_cons]
    · rw [if_neg h]
      simp only [List.mem_cons, ih]
      tauto

theorem mem_sortByLe {α : Type} (le : α → α → Bool) (b : α) :
    ∀ (l : List α), b ∈ sortByLe le l ↔ b ∈ l := by
  intro l
  induction l with
  | nil => simp [sortByLe]
  | cons c cs ih =>
    unfold sortByLe at ih ⊢
    simp only [List.foldr_cons]
    rw [mem_insertSorted]
    simp only [List.mem_cons, ih]

theorem mem_dedupFirst {α : Type} [DecidableEq α] (b : α) :
    ∀ (l : List α), b ∈ dedupFirst l ↔ b ∈ l := by
  have key : ∀ (n : Nat) (l : List α), l.length ≤ n →
      (b ∈ dedupFirst l ↔ b ∈ l) := by
    intro n
    induction n with
    | zero =>
      intro l hl
      rw [List.length_eq_zero.mp (Nat.le_zero.mp hl)]
      simp [dedupFirst]
    | succ m ih =>
      intro l hl
      cases l with
      | nil => simp [dedupFirst]
      | cons c cs =>
        rw [show dedupFirst (c :: cs) = c :: dedupFirst (cs.filter (fun d => d ≠ c))
          from by rw [dedupFirst]]
        rw [List.mem_cons, ih _ (le_trans (List.length_filter_le _ _)
          (Nat.le_of_succ_le_succ hl))]
        simp only [List.mem_filter, List.mem_cons]
        by_cases hbc : b = c
        · simp [hbc]
        · simp [hbc]
  exact fun l => key l.length l (le_refl _)

theorem agg_error_recovery (df : DF) (spec : SpecDict) (e : String)
    (hf : (chartFiltered df spec).isEmpty = false)
    (herr : _apply_aggregation (chartFiltered df spec) (chartAggArg spec)
      ((spec.x_axis.getStr).getD "") ((spec.y_axis.getStr).getD "")
      spec.color_by.getStr = .error e) :
    chartData df spec =
      (if (_get_columns_for_chart spec).isEmpty then .ok (chartFiltered df spec)
       else _prepare_data (chartFiltered df spec)
         (_get_columns_for_chart spec) false) := by
  unfold chartFiltered at hf
  unfold chartFiltered chartAggArg at herr
  unfold chartFiltered
  unfold chartData
  dsimp only
  rw [if_neg (by rw [hf]; exact Bool.false_ne_true)]
  rw [herr]
  dsimp only
  rw [ite_self]

theorem agg_count_single (df : DF) (x y : String) (res : DF)
    (hres : _apply_aggregation df "count" x y none = .ok res) :
    ∃ keys : List Cell,
      res = ⟨[(x, ⟨((df.findCol x).getD ⟨.dObj, []⟩).dtype, keys⟩),
              (y, ⟨.dInt, keys.map (fun k => .num
                ((((List.range df.nrows).filter
                  (fun i => df.cellAt x i = k)).length : ℚ)))⟩)]⟩ ∧
      ∀ k : Cell, k ∈ keys ↔
        (k ≠ .null ∧ ∃ i ∈ List.range df.nrows, df.cellAt x i = k) := by
  unfold _apply_aggregation at hres
  dsimp only at hres
  rw [show assocLookup "count"
      [("sum", "sum"), ("mean", "mean"), ("count", "count"),
       ("min", "min"), ("max", "max")] = some "count" from rfl] at hres
  dsimp only at hres
  by_cases hx : df.names.contains x
  · rw [if_neg (not_not_intro hx)] at hres
    by_cases hy : df.names.contains y
    · rw [if_neg (not_not_intro hy)] at hres
      unfold _apply_aggregation.aggSingle at hres
      dsimp only at hres
      rw [if_pos rfl] at hres
      have hframe : res = _ := ((Except.ok.injEq _ _).mp hres).symm
      have hmem : ∀ k : Cell, k ∈ sortByLe cellLe (dedupFirst
          (((List.range df.nrows).filter
            (fun i => df.cellAt x i ≠ Cell.null)).map (df.cellAt x))) ↔
          (k ≠ Cell.null ∧ ∃ i ∈ List.range df.nrows, df.cellAt x i = k) := by
        intro k
        rw [mem_sortByLe, mem_dedupFirst, List.mem_map]
        constructor
        · rintro ⟨i, hi, hik⟩
          have hi2 := List.mem_filter.mp hi
          refine ⟨?_, i, hi2.1, hik⟩
          rw [← hik]
          exact of_decide_eq_true hi2.2
        · rintro ⟨hk, i, hi, hik⟩
          refine ⟨i, List.mem_filter.mpr ⟨hi, decide_eq_true ?_⟩, hik⟩
          rw [hik]
          exact hk
      refine ⟨sortByLe cellLe (dedupFirst (((List.range df.nrows).filter
        (fun i => df.cellAt x i ≠ Cell.null)).map (df.cellAt x))), ?_, hmem⟩
      rw [hframe]
      refine congrArg DF.mk ?_
      have hcnt : (sortByLe cellLe (dedupFirst (((List.range df.nrows).filter
          (fun i => df.cellAt x i ≠ Cell.null)).map (df.cellAt x)))).map
            (fun k => Cell.num
              (((((List.range df.nrows).filter
                  (fun i => df.cellAt x i ≠ Cell.null)).filter
                (fun i => df.cellAt x i = k)).length : ℚ))) =
          (sortByLe cellLe (dedupFirst (((List.range df.nrows).filter
            (fun i => df.cellAt x i ≠ Cell.null)).map (df.cellAt x)))).map
            (fun k => Cell.num ((((List.range df.nrows).filter
              (fun i => df.cellAt x i = k)).length : ℚ))) := by
        refine List.map_congr_left (fun k hk => ?_)
        have hknn : k ≠ Cell.null := ((hmem k).mp hk).1
        rw [List.filter_filter]
        have hflt : (List.range df.nrows).filter
            (fun a => decide (df.cellAt x a = k) && decide (df.cellAt x a ≠ Cell.null)) =
            (List.range df.nrows).filter (fun i => df.cellAt x i = k) := by
          refine List.filter_congr (fun i _ => ?_)
          by_cases hik : df.cellAt x i = k
          · simp [hik, hknn]
          · simp [hik]
        rw [hflt]
      rw [hcnt]
    · rw [if_pos hy] at hres
      cases hres
  · rw [if_pos hx] at hres
    cases hres

theorem agg_count_color (df : DF) (x y c : String) (res : DF)
    (hc : df.names.contains c = true)
    (hres : _apply_aggregation df "count" x y (some c) = .ok res) :
    ∃ keys : List (Cell × Cell),
      res = ⟨[(x, ⟨((df.findCol x).getD ⟨.dObj, []⟩).dtype, keys.map Prod.fst⟩),
              (c, ⟨((df.findCol c).getD ⟨.dObj, []⟩).dtype, keys.map Prod.snd⟩),
              (y, ⟨.dInt, keys.map (fun k => .num
                ((((List.range df.nrows).filter
                  (fun i => (df.cellAt x i, df.cellAt c i) = k)).length : ℚ)))⟩)]⟩ ∧
      ∀ k : Cell × Cell, k ∈ keys ↔
        (k.1 ≠ .null ∧ k.2 ≠ .null ∧
          ∃ i ∈ List.range df.nrows, (df.cellAt x i, df.cellAt c i) = k) := by
  unfold _apply_aggregation at hres
  dsimp only at hres
  rw [show assocLookup "count"
      [("sum", "sum"), ("mean", "mean"), ("count", "count"),
       ("min", "min"), ("max", "max")] = some "count" from rfl] at hres
  dsimp only at hres
  by_cases hx : df.names.contains x
  · rw [if_neg (not_not_intro hx)] at hres
    by_cases hy : df.names.contains y
    · rw [if_neg (not_not_intro hy)] at hres
      rw [if_pos hc] at hres
      rw [if_pos rfl] at hres
      have hframe : res = _ := ((Except.ok.injEq _ _).mp hres).symm
      have hmem : ∀ k : Cell × Cell, k ∈ sortByLe cellPairLe (dedupFirst
          (((List.range df.nrows).filter
            (fun i => df.cellAt x i ≠ Cell.null ∧ df.cellAt c i ≠ Cell.null)).map
              (fun i => (df.cellAt x i, df.cellAt c i)))) ↔
          (k.1 ≠ Cell.null ∧ k.2 ≠ Cell.null ∧
            ∃ i ∈ List.range df.nrows, (df.cellAt x i, df.cellAt c i) = k) := by
        intro k
        rw [mem_sortByLe, mem_dedupFirst, List.mem_map]
        constructor
        · rintro ⟨i, hi, hik⟩
          have hi2 := List.mem_filter.mp hi
          have hcond := of_decide_eq_true hi2.2
          refine ⟨?_, ?_, i, hi2.1, hik⟩
          · rw [← hik]
            exact hcond.1
          · rw [← hik]
            exact hcond.2
        · rintro ⟨hk1, hk2, i, hi, hik⟩
          refine ⟨i, List.mem_filter.mpr ⟨hi, decide_eq_true ?_⟩, hik⟩
          constructor
          · rw [show df.cellAt x i = k.1 from congrArg Prod.fst hik]
            exact hk1
          · rw [show df.cellAt c i = k.2 from congrArg Prod.snd hik]
            exact hk2
      refine ⟨sortByLe cellPairLe (dedupFirst (((List.range df.nrows).filter
        (fun i => df.cellAt x i ≠ Cell.null ∧ df.cellAt c i ≠ Cell.null)).map
          (fun i => (df.cellAt x i, df.cellAt c i)))), ?_, hmem⟩
      rw [hframe]
      refine congrArg DF.mk ?_
      have hcnt : (sortByLe cellPairLe (dedupFirst (((List.range df.nrows).filter
          (fun i => df.cellAt x i ≠ Cell.null ∧ df.cellAt c i ≠ Cell.null)).map
            (fun i => (df.cellAt x i, df.cellAt c i))))).map
            (fun k => Cell.num
              (((((List.range df.nrows).filter
                  (fun i => df.cellAt x i ≠ Cell.null ∧ df.cellAt c i ≠ Cell.null)).filter
                (fun i => (df.cellAt x i, df.cellAt c i) = k)).length : ℚ))) =
          (sortByLe cellPairLe (dedupFirst (((List.range df.nrows).filter
            (fun i => df.cellAt x i ≠ Cell.null ∧ df.cellAt c i ≠ Cell.null)).map
              (fun i => (df.cellAt x i, df.cellAt c i))))).map
            (fun k => Cell.num ((((List.range df.nrows).filter
              (fun i => (df.cellAt x i, df.cellAt c i) = k)).length : ℚ))) := by
        refine List.map_congr_left (fun k hk => ?_)
        obtain ⟨hk1, hk2, _⟩ := (hmem k).mp hk
        rw [List.filter_filter]
        have hflt : (List.range df.nrows).filter
            (fun a => decide ((df.cellAt x a, df.cellAt c a) = k) &&
              decide (df.cellAt x a ≠ Cell.null ∧ df.cellAt c a ≠ Cell.null)) =
            (List.range df.nrows).filter
              (fun i => (df.cellAt x i, df.cellAt c i) = k) := by
          refine List.filter_congr (fun i _ => ?_)
          by_cases hik : (df.cellAt x i, df.cellAt c i) = k
          · have h1 : df.cellAt x i = k.1 := congrArg Prod.fst hik
            have h2 : df.cellAt c i = k.2 := congrArg Prod.snd hik
            simp [hik, h1, h2, hk1, hk2]
          · simp [hik]
        rw [hflt]
      rw [hcnt]
    · rw [if_pos hy] at hres
      cases hres
  · rw [if_pos hx] at hres
    cases hres

/-- C7: during rendering, an aggregation failure is swallowed — the
chart is built from the unaggregated filtered frame; `count`
aggregation groups the rows by the x column (additionally by the colour
column when present), its keys being exactly the distinct non-null
values, and each group's value is the number of rows carrying that key,
independent of the y column's contents. -/
theorem claim7_aggregation :
    (∀ (df : DF) (spec : SpecDict) (e : String),
      (chartFiltered df spec).isEmpty = false →
      _apply_aggregation (chartFiltered df spec) (chartAggArg spec)
        ((spec.x_axis.getStr).getD "") ((spec.y_axis.getStr).getD "")
        spec.color_by.getStr = .error e →
      chartData df spec =
        (if (_get_columns_for_chart spec).isEmpty then .ok (chartFiltered df spec)
         else _prepare_data (chartFiltered df spec)
           (_get_columns_for_chart spec) false)) ∧
    (∀ (df : DF) (x y : String) (res : DF),
      _apply_aggregation df "count" x y none = .ok res →
      ∃ keys : List Cell,
        res = ⟨[(x, ⟨((df.findCol x).getD ⟨.dObj, []⟩).dtype, keys⟩),
                (y, ⟨.dInt, keys.map (fun k => .num
                  ((((List.range df.nrows).filter
                    (fun i => df.cellAt x i = k)).length : ℚ)))⟩)]⟩ ∧
        ∀ k : Cell, k ∈ keys ↔
          (k ≠ .null ∧ ∃ i ∈ List.range df.nrows, df.cellAt x i = k)) ∧
    (∀ (df : DF) (x y c : String) (res : DF),
      df.names.contains c = true →
      _apply_aggregation df "count" x y (some c) = .ok res →
      ∃ keys : List (Cell × Cell),
        res = ⟨[(x, ⟨((df.findCol x).getD ⟨.dObj, []⟩).dtype, keys.map Prod.fst⟩),
                (c, ⟨((df.findCol c).getD ⟨.dObj, []⟩).dtype, keys.map Prod.snd⟩),
                (y, ⟨.dInt, keys.map (fun k => .num
                  ((((List.range df.nrows).filter
                    (fun i => (df.cellAt x i, df.cellAt c i) = k)).length : ℚ)))⟩)]⟩ ∧
        ∀ k : Cell × Cell, k ∈ keys ↔
          (k.1 ≠ .null ∧ k.2 ≠ .null ∧
            ∃ i ∈ List.range df.nrows, (df.cellAt x i, df.cellAt c i) = k)) :=
  ⟨fun df spec e hf herr => agg_error_recovery df spec e hf herr,
   fun df x y res hres => agg_count_single df x y res hres,
   fun df x y c res hc hres => agg_count_color df x y c res hc hres⟩

/-- Witness for C7: a 'median' aggregation request fails inside
`_apply_aggregation`, and the render proceeds on the unfiltered frame. -/
theorem claim7_witness :
    chartData ⟨[("a", ⟨.dObj, [.str "u"]⟩)]⟩
        { chart_type := PyOpt.val "bar", x_axis := PyOpt.val "a",
          y_axis := PyOpt.val "a", aggregation := PyOpt.val "median" } =
      (if (_get_columns_for_chart
          { chart_type := PyOpt.val "bar", x_axis := PyOpt.val "a",
            y_axis := PyOpt.val "a", aggregation := PyOpt.val "median" }).isEmpty then
        .ok (chartFiltered ⟨[("a", ⟨.dObj, [.str "u"]⟩)]⟩
          { chart_type := PyOpt.val "bar", x_axis := PyOpt.val "a",
            y_axis := PyOpt.val "a", aggregation := PyOpt.val "median" })
       else _prepare_data (chartFiltered ⟨[("a", ⟨.dObj, [.str "u"]⟩)]⟩
          { chart_type := PyOpt.val "bar", x_axis := PyOpt.val "a",
            y_axis := PyOpt.val "a", aggregation := PyOpt.val "median" })
         (_get_columns_for_chart
          { chart_type := PyOpt.val "bar", x_axis := PyOpt.val "a",
            y_axis := PyOpt.val "a", aggregation := PyOpt.val "median" }) false) :=
  claim7_aggregation.1 ⟨[("a", ⟨.dObj, [.str "u"]⟩)]⟩
    { chart_type := PyOpt.val "bar", x_axis := PyOpt.val "a",
      y_axis := PyOpt.val "a", aggregation := PyOpt.val "median" }
    "Unsupported aggregation" (by rfl) (by rfl)

/-! ### Claim C10: column restriction before dispatch -/

theorem selectCols_names_subset (df : DF) (ns : List String) :
    (df.selectCols ns).names ⊆ ns := by
  intro a ha
  unfold DF.selectCols DF.names at ha
  obtain ⟨p, hp, hpa⟩ := List.mem_map.mp ha
  obtain ⟨n, hn, hfn⟩ := List.mem_filterMap.mp hp
  cases hfind : df.cols.find? (fun q => q.1 = n) with
  | none =>
    rw [hfind] at hfn
    cases hfn
  | some q =>
    rw [hfind] at hfn
    simp only [Option.map_some'] at hfn
    have hpq : (n, q.2) = p := Option.some_inj.mp hfn
    rw [← hpa, ← hpq]
    exact hn

theorem dropAllNullCols_names_subset (df : DF) :
    df.dropAllNullCols.names ⊆ df.names := by
  intro a ha
  unfold DF.dropAllNullCols DF.names at ha
  unfold DF.names
  obtain ⟨p, hp, hpa⟩ := List.mem_map.mp ha
  exact List.mem_map.mpr ⟨p, (List.mem_filter.mp hp).1, hpa⟩

theorem filterRows_names (df : DF) (k : Nat → Bool) :
    (df.filterRows k).names = df.names := by
  unfold DF.filterRows DF.names
  rw [List.map_map]
  exact List.map_congr_left (fun p _ => rfl)

theorem dropAllNullRows_names (df : DF) :
    df.dropAllNullRows.names = df.names :=
  filterRows_names df _

theorem selectNumeric_names_subset (df : DF) :
    df.selectNumeric.names ⊆ df.names := by
  intro a ha
  unfold DF.selectNumeric DF.names at ha
  unfold DF.names
  obtain ⟨p, hp, hpa⟩ := List.mem_map.mp ha
  exact List.mem_map.mpr ⟨p, (List.mem_filter.mp hp).1, hpa⟩

theorem selectNumeric_cols_numeric (df : DF) :
    ∀ p ∈ df.selectNumeric.cols, p.2.dtype.isNumeric = true := by
  intro p hp
  exact (List.mem_filter.mp hp).2

theorem prepare_ok_cases (df : DF) (cols : List String) (b : Bool) (d : DF)
    (h : _prepare_data df cols b = .ok d) :
    d = (if b then
        (((df.selectCols (cols.filter (fun c =>
          df.names.contains c))).dropAllNullCols).dropAllNullRows).selectNumeric
      else
        ((df.selectCols (cols.filter (fun c =>
          df.names.contains c))).dropAllNullCols).dropAllNullRows) := by
  cases b
  · rw [if_neg Bool.false_ne_true]
    unfold _prepare_data at h
    dsimp only at h
    simp only [Bool.false_eq_true, if_false, Bool.false_and] at h
    split at h
    · cases h
    · split at h
      · cases h
      · exact ((Except.ok.injEq _ _).mp h).symm
  · rw [if_pos rfl]
    unfold _prepare_data at h
    dsimp only at h
    simp only [eq_self_iff_true, if_true, Bool.true_and] at h
    split at h
    · cases h
    · split at h
      · cases h
      · exact ((Except.ok.injEq _ _).mp h).symm

theorem prepare_names_subset (df : DF) (cols : List String) (b : Bool) (d : DF)
    (h : _prepare_data df cols b = .ok d) : d.names ⊆ cols := by
  have hd := prepare_ok_cases df cols b d h
  have hbase : (((df.selectCols (cols.filter (fun c =>
      df.names.contains c))).dropAllNullCols).dropAllNullRows).names ⊆ cols := by
    rw [dropAllNullRows_names]
    intro a ha
    exact (List.mem_filter.mp (selectCols_names_subset df _
      (dropAllNullCols_names_subset _ ha))).1
  cases b
  · rw [if_neg Bool.false_ne_true] at hd
    rw [hd]
    exact hbase
  · rw [if_pos rfl] at hd
    rw [hd]
    exact fun a ha => hbase (selectNumeric_names_subset _ ha)

theorem prepare_numeric_cols (df : DF) (cols : List String) (d : DF)
    (h : _prepare_data df cols true = .ok d) :
    ∀ p ∈ d.cols, p.2.dtype.isNumeric = true := by
  have hd := prepare_ok_cases df cols true d h
  rw [if_pos rfl] at hd
  rw [hd]
  exact selectNumeric_cols_numeric _

theorem chartData_names_subset (df : DF) (spec : SpecDict) (d : DF)
    (hcn : _get_columns_for_chart spec ≠ [])
    (h : chartData df spec = .ok d) :
    d.names ⊆ _get_columns_for_chart spec := by
  unfold chartData at h
  dsimp only at h
  split at h
  · cases h
  · by_cases hemp : (_get_columns_for_chart spec).isEmpty
    · exact absurd (List.isEmpty_iff.mp hemp) hcn
    · rw [if_neg hemp] at h
      exact prepare_names_subset _ _ _ _ h

theorem cols_needed_ne_nil {spec : SpecDict} (hx : spec.x_axis.truthy = true) :
    _get_columns_for_chart spec ≠ [] := by
  unfold _get_columns_for_chart
  cases hxv : spec.x_axis with
  | absent => simp [PyOpt.truthy, hxv] at hx
  | null => simp [PyOpt.truthy, hxv] at hx
  | val s =>
    rw [hxv] at hx
    have hs : ¬ s = "" := by simpa [PyOpt.truthy] using hx
    simp [PyOpt.getStr, hs]

/-- C10: whenever the spec names at least one of x_axis/y_axis/color_by,
the frame handed to the builders holds only the named columns; and a
successful heatmap render inspects a numeric sub-frame `nd` of that
restricted frame with at least 2 columns — so the correlation matrix
covers only named numeric columns, however many numeric columns the full
table has. -/
theorem claim10_column_restriction :
    (∀ (df : DF) (spec : SpecDict) (d : DF),
      _get_columns_for_chart spec ≠ [] →
      chartData df spec = .ok d →
      d.names ⊆ _get_columns_for_chart spec) ∧
    (∀ (df : DF) (spec : SpecDict) (fig : Fig),
      chartTypeOf spec = .ok "heatmap" →
      spec.x_axis.truthy = true →
      generate_chart df spec = .ok fig →
      ∃ d nd, chartData df spec = .ok d ∧
        d.names ⊆ _get_columns_for_chart spec ∧
        _prepare_data d d.names true = .ok nd ∧
        2 ≤ nd.cols.length ∧
        nd.names ⊆ d.names ∧
        (∀ p ∈ nd.cols, p.2.dtype.isNumeric = true) ∧
        fig = .heatmapFig nd.names (nd.cols.map (fun p => corrDiag p.2))) := by
  constructor
  · exact fun df spec d hcn h => chartData_names_subset df spec d hcn h
  · intro df spec fig hct hx hgen
    unfold generate_chart at hgen
    rw [hct] at hgen
    dsimp only at hgen
    rw [if_neg (not_not_intro (by decide))] at hgen
    by_cases hde : df.isEmpty
    · rw [if_pos hde] at hgen
      cases hgen
    · rw [if_neg hde] at hgen
      cases hcd : chartData df spec with
      | error e =>
        rw [hcd] at hgen
        cases hgen
      | ok d =>
        rw [hcd] at hgen
        dsimp only at hgen
        rw [show buildChart "heatmap" d spec = _create_heatmap d spec from rfl] at hgen
        unfold _create_heatmap at hgen
        cases hprep : _prepare_data d d.names true with
        | error e =>
          rw [hprep] at hgen
          cases hgen
        | ok nd =>
          rw [hprep] at hgen
          dsimp only at hgen
          by_cases hlt : nd.cols.length < 2
          · rw [if_pos hlt] at hgen
            cases hgen
          · rw [if_neg hlt] at hgen
            exact ⟨d, nd, rfl,
              chartData_names_subset df spec d (cols_needed_ne_nil hx) hcd,
              hprep, by omega, prepare_names_subset d d.names true nd hprep,
              prepare_numeric_cols d d.names nd hprep,
              ((Except.ok.injEq _ _).mp hgen).symm⟩

/-- Witness for C10 at a two-column frame restricted to its x column. -/
theorem claim10_witness :
    (⟨[("a", ⟨DType.dInt, [Cell.num 1]⟩)]⟩ : DF).names ⊆
      _get_columns_for_chart { x_axis := PyOpt.val "a" } :=
  claim10_column_restriction.1
    ⟨[("a", ⟨.dInt, [.num 1]⟩), ("b", ⟨.dInt, [.num 2]⟩)]⟩
    { x_axis := PyOpt.val "a" }
    ⟨[("a", ⟨.dInt, [.num 1]⟩)]⟩
    (by decide) (by rfl)

/-! ### Claim C9: immutability of stored tables

A heap of live dataframes tracks object identity: a reference is an index.
Every pandas operation that returns a new frame (`copy`, boolean-mask
selection, `groupby(...).reset_index()`, column selection, `dropna`,
`value_counts().reset_index()`) allocates; the source's two in-place writes
(`df[column] = pd.to_numeric(...)` in `_ensure_numeric`, after `df =
df.copy()`, and `counts.columns = [...]` in the bar builder, on the fresh
`counts`) write through `hset`. -/

abbrev Heap : Type := List DF

def hget (h : Heap) (r : Nat) : DF := (h[r]?).getD ⟨[]⟩

def halloc (h : Heap) (df : DF) : Heap × Nat := (h ++ [df], h.length)

def hset (h : Heap) (r : Nat) (df : DF) : Heap := h.set r df

/-- Heap extension: all previously allocated frames are untouched. -/
def HExt (h h2 : Heap) : Prop :=
  h.length ≤ h2.length ∧ ∀ i, i < h.length → h2[i]? = h[i]?

/-- A filter specification of `data_handler.apply_filters` (attribute
access on a FilterSpec object). -/
structure FSpec where
  column : String
  operator : String
  value : PyVal
deriving DecidableEq, Repr

/-- The numeric view pandas takes of a scalar for comparisons. -/
def pyValNum : PyVal → Option ℚ
  | .i n => some (n : ℚ)
  | .b b => some (if b then 1 else 0)
  | .s _ => none

def cellOrdTest (op : String) (a b : ℚ) : Bool :=
  if op = ">" then a > b
  else if op = "<" then a < b
  else if op = ">=" then a ≥ b
  else a ≤ b

def strOrdTest (op : String) (a b : String) : Bool :=
  if op = ">" then b < a
  else if op = "<" then a < b
  else if op = ">=" then b ≤ a
  else a ≤ b

/-- One cell under one comparison operator, pandas semantics: `==`/`!=`
never raise (NaN is unequal to everything, so `!=` keeps NaN rows); the
four ordering operators compare numbers with numbers and strings with
strings and raise a TypeError across types. -/
def cellFilterTest (op : String) (c : Cell) (v : PyVal) : Except String Bool :=
  if op = "==" then .ok (cellEqPy c v)
  else if op = "!=" then .ok (!(cellEqPy c v))
  else
    match c, v with
    | .num q, .i n => .ok (cellOrdTest op q (n : ℚ))
    | .num q, .b b => .ok (cellOrdTest op q (if b then 1 else 0))
    | .num _, .s _ => .error "TypeError: comparison of number and str"
    | .null, .i _ => .ok false
    | .null, .b _ => .ok false
    | .null, .s _ => .error "TypeError: comparison of NaN and str"
    | .str s, .s t => .ok (strOrdTest op s t)
    | .str _, _ => .error "TypeError: comparison of str and number"

/-- One iteration of the `apply_filters` loop: unknown column raises
plainly (outside the try), unsupported operators and comparison
TypeErrors are wrapped in 'Error applying filter: '. -/
def applyFilterOne (df : DF) (f : FSpec) : Except String DF :=
  if ¬ df.names.contains f.column then
    .error ("Column " ++ f.column ++ " not found")
  else if ¬ (["==", ">", "<", ">=", "<=", "!="].contains f.operator) then
    .error ("Error applying filter: Unsupported operator: " ++ f.operator)
  else
    match (List.range df.nrows).mapM
        (fun i => cellFilterTest f.operator (df.cellAt f.column i) f.value) with
    | .error e => .error ("Error applying filter: " ++ e)
    | .ok tests => .ok (df.filterRows (fun i => tests.getD i false))

/-- Embedding of `DataHandler.apply_filters` (value level): empty filter
list returns the frame as-is, otherwise the filters fold over a copy. -/
def apply_filters (df : DF) (filters : List FSpec) : Except String DF :=
  if filters.isEmpty then .ok df
  else filters.foldlM applyFilterOne df

/-- The `apply_filters` loop on the heap: each applied filter rebinds
`filtered_df` to a freshly allocated masked frame. -/
def applyFiltersGo (h : Heap) (r : Nat) : List FSpec → Heap × Except String Nat
  | [] => (h, .ok r)
  | f :: fs =>
    match applyFilterOne (hget h r) f with
    | .error e => (h, .error e)
    | .ok d =>
      let (h1, r1) := halloc h d
      applyFiltersGo h1 r1 fs

/-- Heap-level `DataHandler.apply_filters`: with no filters the input
reference itself is returned; otherwise `filtered_df = df.copy()`
allocates and the loop runs on the copy. -/
def apply_filters_h (h : Heap) (r : Nat) (filters : List FSpec) :
    Heap × Except String Nat :=
  if filters.isEmpty then (h, .ok r)
  else
    let (h1, r1) := halloc h (hget h r)
    applyFiltersGo h1 r1 filters

/-- Heap-level `_prepare_data`: selection and the dropna steps all return
fresh frames; the final one is allocated, nothing is written in place. -/
def _prepare_data_h (h : Heap) (r : Nat) (cols : List String) (b : Bool) :
    Heap × Except String Nat :=
  match _prepare_data (hget h r) cols b with
  | .error e => (h, .error e)
  | .ok d =>
    let (h1, r1) := halloc h d
    (h1, .ok r1)

/-- Heap-level `_ensure_numeric`: `df = df.copy()` allocates, the
`df[column] = pd.to_numeric(...)` assignment writes in place — but only to
that fresh copy — and `dropna(subset=...)` allocates again. -/
def _ensure_numeric_h (h : Heap) (r : Nat) (column : String) :
    Heap × Except String Nat :=
  if ¬ (hget h r).names.contains column then
    (h, .error "Column not found")
  else
    let (h1, r1) := halloc h (hget h r)
    match (hget h1 r1).findCol column with
    | none => (h1, .error "Column not found")
    | some col =>
      if col.dtype ≠ .dObj then (h1, .ok r1)
      else
        let coerced : List Cell := col.cells.map toNumericCell
        let h2 := hset h1 r1 ((hget h1 r1).setCol column ⟨.dFloat, coerced⟩)
        let d3 := (hget h2 r1).filterRows (fun i => coerced.getD i .null ≠ .null)
        let (h3, r3) := halloc h2 d3
        if (hget h3 r3).isEmpty then
          (h3, .error "Column contains no valid numeric values")
        else (h3, .ok r3)

/-- Heap-level bar builder: in the count branch,
`value_counts().reset_index()` allocates a fresh `counts` frame and
`counts.columns = [x_axis, 'count']` writes its header in place. -/
def _create_bar_chart_h (h : Heap) (r : Nat) (spec : SpecDict) :
    Heap × Except String Fig :=
  match spec.x_axis.getStr with
  | none => (h, .error "Bar chart requires x_axis")
  | some x =>
    match spec.y_axis.getStr with
    | some y =>
      match _prepare_data_h h r [x, y] false with
      | (h1, .error e) => (h1, .error ("Error creating bar chart: " ++ e))
      | (h1, .ok r1) =>
        (h1, .ok (.barXY (hget h1 r1) x y
          (colorArg spec.color_by.getStr (hget h1 r1))))
    | none =>
      match _prepare_data_h h r [x] false with
      | (h1, .error e) => (h1, .error ("Error creating bar chart: " ++ e))
      | (h1, .ok r1) =>
        let vc := valueCounts (((hget h1 r1).findCol x).getD ⟨.dObj, []⟩).cells
        let (h2, r2) := halloc h1
          ⟨[("index", ⟨.dObj, vc.map Prod.fst⟩),
            (x, ⟨.dInt, vc.map (fun p => .num p.2)⟩)]⟩
        let h3 := hset h2 r2
          ⟨[(x, ⟨.dObj, vc.map Prod.fst⟩),
            ("count", ⟨.dInt, vc.map (fun p => .num p.2)⟩)]⟩
        (h3, .ok (.barCount vc x))

/-- Heap-level histogram builder: the only builder that reaches
`_ensure_numeric` and hence the in-place numeric coercion. -/
def _create_histogram_h (h : Heap) (r : Nat) (spec : SpecDict) :
    Heap × Except String Fig :=
  match spec.x_axis.getStr with
  | none => (h, .error "Histogram requires x_axis")
  | some x =>
    match _prepare_data_h h r [x] false with
    | (h1, .error e) => (h1, .error ("Error creating histogram: " ++ e))
    | (h1, .ok r1) =>
      let step2 : Heap × Except String Nat :=
        match (hget h1 r1).findCol x with
        | some col =>
          if col.dtype = .dObj then _ensure_numeric_h h1 r1 x
          else (h1, .ok r1)
        | none => (h1, .error "KeyError")
      match step2 with
      | (h2, .error e) => (h2, .error ("Error creating histogram: " ++ e))
      | (h2, .ok r2) =>
        match (hget h2 r2).findCol x with
        | none => (h2, .error "Error creating histogram: KeyError")
        | some col2 =>
          if col2.dtype.isNumeric then (h2, .ok (.histFig (hget h2 r2) x 20))
          else
            match (hget h2 r2).selectNumeric.names.head? with
            | some nc => (h2, .ok (.histFig (hget h2 r2) nc 20))
            | none =>
              (h2, .error "Error creating histogram: column is not numeric and no numeric columns found in data")

/-- Heap-level builder dispatch: bar and histogram carry the two in-place
writes; the remaining builders only derive fresh frames (their sources
contain no assignment to a frame), so they are heap-neutral. -/
def buildChart_h (ct : String) (h : Heap) (r : Nat) (spec : SpecDict) :
    Heap × Except String Fig :=
  if ct = "bar" then _create_bar_chart_h h r spec
  else if ct = "histogram" then _create_histogram_h h r spec
  else (h, buildChart ct (hget h r) spec)

/-- The `==`-filter loop of `generate_chart` on the heap: each applied
filter rebinds `filtered_df` to a fresh masked frame. -/
def applyEqFilters_h (h : Heap) (r : Nat) (fs : List FilterDict) : Heap × Nat :=
  fs.foldl (fun hr f =>
    let d := hget hr.1 hr.2
    match f.column with
    | none => hr
    | some colName =>
      if colName = "" then hr
      else if ¬ d.names.contains colName then hr
      else
        match f.operator with
        | some "==" =>
          let v : Option PyVal := (f.value).getD none
          halloc hr.1 (d.filterRows (fun i =>
            match v with
            | some pv => cellEqPy (d.cellAt colName i) pv
            | none => false))
        | _ => hr) (h, r)

/-- The aggregation stage of `generate_chart` on the heap: a successful
`_apply_aggregation` yields a fresh grouped frame; a failure keeps the
current reference (and the table it points to) untouched. -/
def aggStage_h (h : Heap) (r : Nat) (spec : SpecDict) : Heap × Nat :=
  let agg : Option String :=
    match spec.aggregation with
    | .absent => some "none"
    | .null => none
    | .val s => some s
  let aggActive : Bool :=
    (match agg with
     | some s => s ≠ "" && s ≠ "none"
     | none => false) &&
    spec.y_axis.truthy && spec.x_axis.truthy
  if aggActive then
    match _apply_aggregation (hget h r) (agg.getD "")
        ((spec.x_axis.getStr).getD "") ((spec.y_axis.getStr).getD "")
        spec.color_by.getStr with
    | .ok d => halloc h d
    | .error _ => (h, r)
  else (h, r)

/-- Builder dispatch with `generate_chart`'s error wrapping. -/
def dispatch_h (ct : String) (h : Heap) (r : Nat) (spec : SpecDict) :
    Heap × Except String Fig :=
  match buildChart_h ct h r spec with
  | (h4, .error e) => (h4, .error ("Error generating chart: " ++ e))
  | (h4, .ok fig) => (h4, .ok fig)

/-- Column restriction (`if cols_needed: ... _prepare_data`) then dispatch. -/
def restrictAndDispatch_h (ct : String) (h : Heap) (r : Nat) (spec : SpecDict) :
    Heap × Except String Fig :=
  if (_get_columns_for_chart spec).isEmpty then dispatch_h ct h r spec
  else
    match _prepare_data_h h r (_get_columns_for_chart spec) false with
    | (h4, .error e) => (h4, .error ("Error generating chart: " ++ e))
    | (h4, .ok r4) => dispatch_h ct h4 r4 spec

/-- Heap-level `generate_chart`: `filtered_df = df.copy()` allocates, the
filter loop, aggregation and column restriction each rebind to fresh
frames, and dispatch runs the heap-level builders. -/
def generate_chart_h (h : Heap) (r : Nat) (spec : SpecDict) :
    Heap × Except String Fig :=
  match chartTypeOf spec with
  | .error e => (h, .error ("Error generating chart: " ++ e))
  | .ok ct =>
    if ¬ supportedTypes.contains ct then
      (h, .error "Error generating chart: Unsupported chart type")
    else if (hget h r).isEmpty then
      (h, .error "Error generating chart: Input dataframe is empty")
    else
      let (h1, r1) := halloc h (hget h r)
      let (h2, r2) :=
        match spec.filters with
        | some fs => applyEqFilters_h h1 r1 fs
        | none => (h1, r1)
      if (hget h2 r2).isEmpty then
        (h2, .error "Error generating chart: No data matches the specified filters")
      else
        let (h3, r3) := aggStage_h h2 r2 spec
        restrictAndDispatch_h ct h3 r3 spec

theorem hext_refl (h : Heap) : HExt h h :=
  ⟨le_refl _, fun _ _ => rfl⟩

theorem hext_trans {h1 h2 h3 : Heap} (a : HExt h1 h2) (b : HExt h2 h3) :
    HExt h1 h3 :=
  ⟨le_trans a.1 b.1,
   fun i hi => by rw [b.2 i (lt_of_lt_of_le hi a.1), a.2 i hi]⟩

theorem hext_alloc (h : Heap) (d : DF) : HExt h (halloc h d).1 :=
  ⟨by simp [halloc], fun i hi => List.getElem?_append_left hi⟩

theorem hext_set_fresh {h h2 : Heap} {r : Nat} (hr : h.length ≤ r)
    (hext : HExt h h2) (d : DF) : HExt h (hset h2 r d) :=
  ⟨by rw [show hset h2 r d = h2.set r d from rfl, List.length_set]; exact hext.1,
   fun i hi => by
     rw [show hset h2 r d = h2.set r d from rfl,
       List.getElem?_set_ne (by omega : r ≠ i)]
     exact hext.2 i hi⟩

theorem applyFiltersGo_ext :
    ∀ (fs : List FSpec) (h : Heap) (r : Nat), HExt h (applyFiltersGo h r fs).1 := by
  intro fs
  induction fs with
  | nil => intro h r; exact hext_refl h
  | cons f fs ih =>
    intro h r
    unfold applyFiltersGo
    cases applyFilterOne (hget h r) f with
    | error e => exact hext_refl h
    | ok d =>
      dsimp only [halloc]
      exact hext_trans (hext_alloc h d) (ih _ _)

theorem apply_filters_h_ext (h : Heap) (r : Nat) (filters : List FSpec) :
    HExt h (apply_filters_h h r filters).1 := by
  unfold apply_filters_h
  split
  · exact hext_refl h
  · dsimp only [halloc]
    exact hext_trans (hext_alloc h (hget h r)) (applyFiltersGo_ext _ _ _)

theorem prepare_h_ext (h : Heap) (r : Nat) (cols : List String) (b : Bool) :
    HExt h (_prepare_data_h h r cols b).1 := by
  unfold _prepare_data_h
  split
  · exact hext_refl h
  · dsimp only [halloc]
    exact hext_alloc h _

theorem ensure_h_ext (h : Heap) (r : Nat) (c : String) :
    HExt h (_ensure_numeric_h h r c).1 := by
  unfold _ensure_numeric_h
  split
  · exact hext_refl h
  · dsimp only [halloc]
    split
    · exact hext_alloc h _
    · split
      · exact hext_alloc h _
      · split
        · exact hext_trans
            (hext_set_fresh (le_refl _) (hext_alloc h (hget h r)) _)
            (hext_alloc _ _)
        · exact hext_trans
            (hext_set_fresh (le_refl _) (hext_alloc h (hget h r)) _)
            (hext_alloc _ _)

theorem bar_h_ext (h : Heap) (r : Nat) (spec : SpecDict) :
    HExt h (_create_bar_chart_h h r spec).1 := by
  unfold _create_bar_chart_h
  split
  · exact hext_refl h
  · rename_i xo x hxeq
    split
    · rename_i yo y hyeq
      cases hp : _prepare_data_h h r [x, y] false with
      | mk h1 res =>
        have hx1 : HExt h h1 := by
          have hbase := prepare_h_ext h r [x, y] false
          rw [hp] at hbase
          exact hbase
        cases res with
        | error e => exact hx1
        | ok r1 => exact hx1
    · cases hp : _prepare_data_h h r [x] false with
      | mk h1 res =>
        have hx1 : HExt h h1 := by
          have hbase := prepare_h_ext h r [x] false
          rw [hp] at hbase
          exact hbase
        cases res with
        | error e => exact hx1
        | ok r1 =>
          dsimp only [halloc]
          exact hext_set_fresh hx1.1 (hext_trans hx1 (hext_alloc h1 _)) _

theorem hist_h_ext (h : Heap) (r : Nat) (spec : SpecDict) :
    HExt h (_create_histogram_h h r spec).1 := by
  unfold _create_histogram_h
  split
  · exact hext_refl h
  · rename_i xo x hxeq
    cases hp : _prepare_data_h h r [x] false with
    | mk h1 res =>
      have hx1 : HExt h h1 := by
        have hbase := prepare_h_ext h r [x] false
        rw [hp] at hbase
        exact hbase
      cases res with
      | error e => exact hx1
      | ok r1 =>
        dsimp only
        cases hs : (match (hget h1 r1).findCol x with
          | some col => if col.dtype = DType.dObj then _ensure_numeric_h h1 r1 x
                        else (h1, Except.ok r1)
          | none => (h1, Except.error "KeyError")) with
        | mk h2 res2 =>
          have hx2 : HExt h h2 := by
            have hbase : HExt h1 (match (hget h1 r1).findCol x with
              | some col => if col.dtype = DType.dObj then _ensure_numeric_h h1 r1 x
                            else (h1, Except.ok r1)
              | none => (h1, Except.error "KeyError")).1 := by
              split
              · split
                · exact ensure_h_ext h1 r1 x
                · exact hext_refl h1
              · exact hext_refl h1
            rw [hs] at hbase
            exact hext_trans hx1 hbase
          cases res2 with
          | error e => exact hx2
          | ok r2 =>
            dsimp only
            split
            · exact hx2
            · split
              · exact hx2
              · split
                · exact hx2
                · exact hx2

theorem buildChart_h_ext (ct : String) (h : Heap) (r : Nat) (spec : SpecDict) :
    HExt h (buildChart_h ct h r spec).1 := by
  unfold buildChart_h
  split
  · exact bar_h_ext h r spec
  · split
    · exact hist_h_ext h r spec
    · exact hext_refl h

theorem applyEqFilters_h_cons (h : Heap) (r : Nat) (f : FilterDict)
    (fs : List FilterDict) :
    applyEqFilters_h h r (f :: fs) =
      applyEqFilters_h (applyEqFilters_h h r [f]).1
        (applyEqFilters_h h r [f]).2 fs := by
  unfold applyEqFilters_h
  rw [List.foldl_cons]
  rfl

theorem applyEqFilters_h_one_ext (h : Heap) (r : Nat) (f : FilterDict) :
    HExt h (applyEqFilters_h h r [f]).1 := by
  unfold applyEqFilters_h
  rw [List.foldl_cons, List.foldl_nil]
  dsimp only
  split
  · exact hext_refl h
  · split
    · exact hext_refl h
    · split
      · exact hext_refl h
      · split
        · exact hext_alloc h _
        · exact hext_refl h

theorem applyEqFilters_h_ext :
    ∀ (fs : List FilterDict) (h : Heap) (r : Nat),
      HExt h (applyEqFilters_h h r fs).1 := by
  intro fs
  induction fs with
  | nil => intro h r; exact hext_refl h
  | cons f fs ih =>
    intro h r
    rw [applyEqFilters_h_cons]
    exact hext_trans (applyEqFilters_h_one_ext h r f) (ih _ _)

theorem aggStage_h_ext (h : Heap) (r : Nat) (spec : SpecDict) :
    HExt h (aggStage_h h r spec).1 := by
  unfold aggStage_h
  dsimp only
  split
  · split
    · exact hext_alloc h _
    · exact hext_refl h
  · exact hext_refl h

theorem dispatch_h_ext (ct : String) (h : Heap) (r : Nat) (spec : SpecDict) :
    HExt h (dispatch_h ct h r spec).1 := by
  unfold dispatch_h
  cases hb : buildChart_h ct h r spec with
  | mk h4 res =>
    have hx4 : HExt h h4 := by
      have hbase := buildChart_h_ext ct h r spec
      rw [hb] at hbase
      exact hbase
    cases res with
    | error e => exact hx4
    | ok fig => exact hx4

theorem restrictAndDispatch_h_ext (ct : String) (h : Heap) (r : Nat)
    (spec : SpecDict) : HExt h (restrictAndDispatch_h ct h r spec).1 := by
  unfold restrictAndDispatch_h
  split
  · exact dispatch_h_ext ct h r spec
  · cases hp : _prepare_data_h h r (_get_columns_for_chart spec) false with
    | mk h4 res =>
      have hx4 : HExt h h4 := by
        have hbase := prepare_h_ext h r (_get_columns_for_chart spec) false
        rw [hp] at hbase
        exact hbase
      cases res with
      | error e => exact hx4
      | ok r4 =>
        exact hext_trans hx4 (dispatch_h_ext ct h4 r4 spec)

theorem generate_chart_h_ext (h : Heap) (r : Nat) (spec : SpecDict) :
    HExt h (generate_chart_h h r spec).1 := by
  unfold generate_chart_h
  split
  · exact hext_refl h
  · split
    · exact hext_refl h
    · split
      · exact hext_refl h
      · dsimp only [halloc]
        cases hm : (match spec.filters with
          | some fs => applyEqFilters_h (h ++ [hget h r]) h.length fs
          | none => (h ++ [hget h r], h.length)) with
        | mk h2 r2 =>
          have hx2 : HExt h h2 := by
            have hbase : HExt h (match spec.filters with
              | some fs => applyEqFilters_h (h ++ [hget h r]) h.length fs
              | none => (h ++ [hget h r], h.length)).1 := by
              cases spec.filters with
              | none => exact hext_alloc h (hget h r)
              | some fs =>
                exact hext_trans (hext_alloc h (hget h r))
                  (applyEqFilters_h_ext fs _ _)
            rw [hm] at hbase
            exact hbase
          dsimp only
          split
          · exact hx2
          · cases ha : aggStage_h h2 r2 spec with
            | mk h3 r3 =>
              have hx3 : HExt h h3 := by
                have hbase := aggStage_h_ext h2 r2 spec
                rw [ha] at hbase
                exact hext_trans hx2 hbase
              exact hext_trans hx3 (restrictAndDispatch_h_ext _ h3 r3 spec)

/-- C9: rendering and filter application never mutate a stored table:
every frame already on the heap — the session's table in particular — is
bit-for-bit unchanged after `apply_filters` or `generate_chart`; all
transformations (filter masks, aggregation, column selection) allocate
fresh frames, and the only in-place writes of the source target frames
allocated during the call itself. -/
theorem claim9_immutability :
    (∀ (h : Heap) (r : Nat) (filters : List FSpec) (i : Nat), i < h.length →
      ((apply_filters_h h r filters).1)[i]? = h[i]?) ∧
    (∀ (h : Heap) (r : Nat) (spec : SpecDict) (i : Nat), i < h.length →
      ((generate_chart_h h r spec).1)[i]? = h[i]?) ∧
    (∀ (h : Heap) (r : Nat) (spec : SpecDict), r < h.length →
      hget ((generate_chart_h h r spec).1) r = hget h r) :=
  ⟨fun h r filters i hi => (apply_filters_h_ext h r filters).2 i hi,
   fun h r spec i hi => (generate_chart_h_ext h r spec).2 i hi,
   fun h r spec hr => by
     unfold hget
     rw [(generate_chart_h_ext h r spec).2 r hr]⟩

/-- Witness for C9: one stored table, one `==` filter; the stored entry
is untouched. -/
theorem claim9_witness :
    ((apply_filters_h [(⟨[("a", ⟨.dInt, [.num 1]⟩)]⟩ : DF)] 0
        [⟨"a", "==", .i 1⟩]).1)[0]? =
      [(⟨[("a", ⟨.dInt, [.num 1]⟩)]⟩ : DF)][0]? :=
  claim9_immutability.1 [⟨[("a", ⟨.dInt, [.num 1]⟩)]⟩] 0
    [⟨"a", "==", .i 1⟩] 0 (by decide)

end ChartGen
